import Mathlib

/-!
# Linux-container driver (`src/lxc_driver.c`): shallow embedding

The driver is stateful C code.  It is embedded by explicit state passing:

* C structures become Lean structures with the same field names;
* the linked list `driver->vms` becomes a `List lxc_vm_t`, a pointer into it
  becomes the position of the record in the list;
* every system call or collaborator call whose result the code inspects takes
  its result from an environment structure, so theorems quantify over all
  outcomes;
* every externally visible action (error report, system call, collaborator
  call) is recorded in a trace, newest event first.
-/

namespace LxcDriver

/-! ## Constants taken from system and library headers -/

def EPERM : Int := 1
def ESRCH : Int := 3
def EINTR : Int := 4
def ECHILD : Int := 10
def EAGAIN : Int := 11
def EINVAL : Int := 22

def SIGINT : Int := 2
def SIGKILL : Int := 9
def SIGCHLD : Nat := 17

def CLONE_NEWNS : Nat := 0x00020000
def CLONE_NEWPID : Nat := 0x20000000
def CLONE_NEWUTS : Nat := 0x04000000
def CLONE_NEWUSER : Nat := 0x10000000
def CLONE_NEWIPC : Nat := 0x08000000
def CLONE_NEWNET : Nat := 0x40000000

/-- Index of the parent end in `vm->sockpair` (declared in `lxc_conf.h`). -/
def LXC_PARENT_SOCKET : Nat := 0
/-- Index of the container end in `vm->sockpair` (declared in `lxc_conf.h`). -/
def LXC_CONTAINER_SOCKET : Nat := 1

/-- Modelled from the spec: `sizeof(lxc_message_t)`, whose declaration lives in
`lxc_container.h`; the spec calls the CONTINUE token a one-byte token. -/
def sizeof_lxc_message_t : Int := 1

/-- Error kinds passed to `lxcError`. -/
inductive virErrorNumber where
  | VIR_ERR_INTERNAL_ERROR
  | VIR_ERR_NO_MEMORY
  | VIR_ERR_NO_SUPPORT
  | VIR_ERR_INVALID_DOMAIN
  | VIR_ERR_NO_DOMAIN
  deriving DecidableEq

/-- Lifecycle states of a domain (`virDomainState`). -/
inductive virDomainState where
  | VIR_DOMAIN_NOSTATE
  | VIR_DOMAIN_RUNNING
  | VIR_DOMAIN_BLOCKED
  | VIR_DOMAIN_PAUSED
  | VIR_DOMAIN_SHUTDOWN
  | VIR_DOMAIN_SHUTOFF
  | VIR_DOMAIN_CRASHED
  deriving DecidableEq

/-- Return values of a driver `open` entry point. -/
inductive virDrvOpenStatus where
  | VIR_DRV_OPEN_SUCCESS
  | VIR_DRV_OPEN_DECLINED
  | VIR_DRV_OPEN_ERROR
  deriving DecidableEq

/-! ## Data model -/

/-- Kind of a network interface specification. -/
inductive lxc_net_type where
  | LXC_NET_NETWORK
  | LXC_NET_BRIDGE
  deriving DecidableEq

/-- A network interface of a definition; C strings that may be `NULL` are
`Option String`. -/
structure lxc_net_def_t where
  type : lxc_net_type
  txName : Option String
  parentVeth : Option String
  containerVeth : Option String
  deriving DecidableEq

/-- A container definition; `nets` is the linked list `def->nets`
(`NULL` is the empty list). -/
structure lxc_vm_def_t where
  uuid : List Nat
  name : String
  id : Int
  maxMemory : Int
  tty : Option String
  nets : List lxc_net_def_t
  deriving DecidableEq

/-- A runtime container record (the C field `def` is called `vmdef` here,
`def` being a keyword). -/
structure lxc_vm_t where
  pid : Int
  state : virDomainState
  parentTty : Int
  containerTtyFd : Int
  containerTty : Option String
  sockpair0 : Int
  sockpair1 : Int
  configFile : String
  vmdef : lxc_vm_def_t
  deriving DecidableEq

/-- The driver state. -/
structure lxc_driver_t where
  vms : List lxc_vm_t
  nactivevms : Int
  ninactivevms : Int
  configDir : String
  stateDir : String
  have_netns : Int
  deriving DecidableEq

/-- A parsed connection URI; only the scheme is inspected. -/
structure xmlURI where
  scheme : Option String
  deriving DecidableEq

/-- A connection; `privateData` is the driver it is bound to, if any. -/
structure virConnect where
  privateData : Option lxc_driver_t
  deriving DecidableEq

/-- A domain handle as passed in by the caller. -/
structure virDomain where
  name : String
  uuid : List Nat
  id : Int
  deriving DecidableEq

/-- Externally visible actions, in the order the code performs them. -/
inductive Event where
  | lxcError (code : virErrorNumber) (msg : String)
  | posix_openpt (fd : Int)
  | close (fd : Int)
  | fork (pid : Int)
  | socketpair (rc : Int) (fd0 fd1 : Int)
  | clone (flags : Nat) (pid : Int)
  | kill (pid : Int) (sig : Int)
  | waitpid (pid : Int)
  | safewrite (fd : Int)
  | vethCreate (parentVeth containerVeth : String)
  | vethDelete (veth : Option String)
  | vethInterfaceUpOrDown (veth : String) (up : Int)
  | moveInterfaceToNetNs (veth : Option String) (pid : Int)
  | brInit
  | brAddInterface (bridge veth : String)
  | virNetworkLookupByName (name : Option String)
  | call (fn : String)
  deriving DecidableEq

/-! ## Registry helpers declared in `lxc_conf.h` -/

/-- Modelled from the spec: `lxcIsActiveVM` is declared in `lxc_conf.h`, which
is not part of the sources; the spec says the runtime id is -1 when the record
is inactive. -/
def lxcIsActiveVM (vm : lxc_vm_t) : Bool :=
  vm.vmdef.id != -1

/-- Position and contents of the first record satisfying `p`, walking the list
from its head as the C lookup loops do.  The position stands for the pointer
the C function returns. -/
def findVM (p : lxc_vm_t → Bool) : List lxc_vm_t → Option (Nat × lxc_vm_t)
  | [] => none
  | vm :: rest =>
    if p vm then some (0, vm) else (findVM p rest).map (fun r => (r.1 + 1, r.2))

/-- Modelled from the spec: `lxcFindVMByID` (in `lxc_conf.c`, not part of the
sources) is an exact match on the runtime id and returns the record or
"not found". -/
def lxcFindVMByID (driver : lxc_driver_t) (id : Int) : Option (Nat × lxc_vm_t) :=
  findVM (fun vm => vm.vmdef.id == id) driver.vms

/-- Modelled from the spec: `lxcFindVMByUUID` (in `lxc_conf.c`, not part of the
sources) is an exact match on the uuid and returns the record or "not found". -/
def lxcFindVMByUUID (driver : lxc_driver_t) (uuid : List Nat) :
    Option (Nat × lxc_vm_t) :=
  findVM (fun vm => vm.vmdef.uuid == uuid) driver.vms

/-- Modelled from the spec: `lxcFindVMByName` (in `lxc_conf.c`, not part of the
sources) is an exact match on the name and returns the record or "not found". -/
def lxcFindVMByName (driver : lxc_driver_t) (name : String) :
    Option (Nat × lxc_vm_t) :=
  findVM (fun vm => vm.vmdef.name == name) driver.vms

/-! ## `lxcOpen` -/

/-- `lxcOpen`: `uid` is the result of `getuid()`, `lxc_driver` the global
driver pointer, `uri` the possibly-`NULL` URI.  Returns the status and the
connection as left by the call. -/
def lxcOpen (uid : Nat) (lxc_driver : Option lxc_driver_t) (conn : virConnect)
    (uri : Option xmlURI) : virDrvOpenStatus × virConnect :=
  -- Check that the user is root
  if 0 ≠ uid then (.VIR_DRV_OPEN_DECLINED, conn)
  else if lxc_driver = none then (.VIR_DRV_OPEN_DECLINED, conn)
  else
    -- Verify uri was specified
    match uri with
    | none => (.VIR_DRV_OPEN_DECLINED, conn)
    | some u =>
      match u.scheme with
      | none => (.VIR_DRV_OPEN_DECLINED, conn)
      | some scheme =>
        -- Check that the uri scheme is lxc
        if scheme ≠ "lxc" then (.VIR_DRV_OPEN_DECLINED, conn)
        else (.VIR_DRV_OPEN_SUCCESS, { conn with privateData := lxc_driver })

/-! ## `lxcListDomains` -/

/-- The `for` loop of `lxcListDomains`: `vms` is the rest of the list still to
visit, `ids` the caller's buffer, `numDoms` the running count. -/
def lxcListDomains_loop (nids : Int) :
    List lxc_vm_t → (Nat → Int) → Nat → (Nat → Int) × Nat
  | [], ids, numDoms => (ids, numDoms)
  | vm :: rest, ids, numDoms =>
    if (numDoms : Int) < nids then
      if lxcIsActiveVM vm then
        lxcListDomains_loop nids rest
          (fun i => if i = numDoms then vm.vmdef.id else ids i) (numDoms + 1)
      else
        lxcListDomains_loop nids rest ids numDoms
    else (ids, numDoms)

/-- `lxcListDomains`: returns the buffer as written and the count. -/
def lxcListDomains (driver : lxc_driver_t) (ids : Nat → Int) (nids : Int) :
    (Nat → Int) × Int :=
  let r := lxcListDomains_loop nids driver.vms ids 0
  (r.1, (r.2 : Int))

/-! ## `lxcDomainDefine` and `lxcDomainUndefine` -/

/-- Collaborator functions of `lxc_conf.c` and of the library core that the
driver calls but whose code is not part of the sources.  They are parameters:
every theorem holds for all their behaviours.  A record pointer is the
position of the record in `driver.vms`. -/
structure lxc_conf_ops where
  lxcParseVMDef : String → Option lxc_vm_def_t
  lxcAssignVMDef : lxc_driver_t → lxc_vm_def_t → Option (lxc_driver_t × Nat × lxc_vm_t)
  lxcSaveVMDef : lxc_driver_t → lxc_vm_t → lxc_vm_def_t → Int × lxc_vm_t
  lxcRemoveInactiveVM : lxc_driver_t → Nat → lxc_driver_t
  lxcDeleteConfig : lxc_driver_t → String → String → Int
  virGetDomain : String → List Nat → Option virDomain

/-- `lxcDomainDefine`: returns the domain handle (or `NULL`), the driver state
and the trace. -/
def lxcDomainDefine (ops : lxc_conf_ops) (driver : lxc_driver_t) (xml : String)
    (trace : List Event) : Option virDomain × lxc_driver_t × List Event :=
  match ops.lxcParseVMDef xml with
  | none => (none, driver, Event.call "lxcParseVMDef" :: trace)
  | some vmdef =>
    let t1 := Event.call "lxcParseVMDef" :: trace
    if vmdef.nets ≠ [] ∧ driver.have_netns = 0 then
      (none, driver,
        Event.call "lxcFreeVMDef" ::
          Event.lxcError .VIR_ERR_NO_SUPPORT "System lacks NETNS support" :: t1)
    else
      match ops.lxcAssignVMDef driver vmdef with
      | none =>
        (none, driver, Event.call "lxcFreeVMDef" :: Event.call "lxcAssignVMDef" :: t1)
      | some (driver1, i, vm) =>
        let t2 := Event.call "lxcAssignVMDef" :: t1
        let saved := ops.lxcSaveVMDef driver1 vm vmdef
        let driver2 := { driver1 with vms := driver1.vms.set i saved.2 }
        let t3 := Event.call "lxcSaveVMDef" :: t2
        if saved.1 < 0 then
          (none, ops.lxcRemoveInactiveVM driver2 i, Event.call "lxcRemoveInactiveVM" :: t3)
        else
          match ops.virGetDomain saved.2.vmdef.name saved.2.vmdef.uuid with
          | none => (none, driver2, Event.call "virGetDomain" :: t3)
          | some dom =>
            (some { dom with id := saved.2.vmdef.id }, driver2,
              Event.call "virGetDomain" :: t3)

/-- `lxcDomainUndefine`: returns the return code, the driver state and the
trace. -/
def lxcDomainUndefine (ops : lxc_conf_ops) (driver : lxc_driver_t) (dom : virDomain)
    (trace : List Event) : Int × lxc_driver_t × List Event :=
  match lxcFindVMByUUID driver dom.uuid with
  | none =>
    (-1, driver, Event.lxcError .VIR_ERR_INVALID_DOMAIN "no domain with matching uuid" :: trace)
  | some (i, vm) =>
    if lxcIsActiveVM vm then
      (-1, driver, Event.lxcError .VIR_ERR_INTERNAL_ERROR "cannot delete active domain" :: trace)
    else if ops.lxcDeleteConfig driver vm.configFile vm.vmdef.name < 0 then
      (-1, driver, Event.call "lxcDeleteConfig" :: trace)
    else
      let driver1 := { driver with vms := driver.vms.set i { vm with configFile := "" } }
      (0, ops.lxcRemoveInactiveVM driver1 i,
        Event.call "lxcRemoveInactiveVM" :: Event.call "lxcDeleteTtyPidFile" ::
          Event.call "lxcDeleteConfig" :: trace)

/-! ## Process state threaded through the launcher and the reaper -/

/-- What the driver process can change besides one record: the driver
structure, whether the bridge-control handle `networkDriver->brctl` is
non-`NULL`, and the trace (newest event first). -/
structure World where
  driver : lxc_driver_t
  brctl : Bool
  trace : List Event
  deriving DecidableEq

/-- A `World` together with the contents of the record the C code holds a
pointer to.  While a function works on `vm`, the copy inside `driver.vms` is
stale; `Ctx.writeBack` stores `vm` at its position again. -/
structure Ctx extends World where
  vm : lxc_vm_t
  deriving DecidableEq

def World.emit (w : World) (e : Event) : World :=
  { w with trace := e :: w.trace }

def World.err (w : World) (code : virErrorNumber) (msg : String) : World :=
  w.emit (.lxcError code msg)

def Ctx.emit (c : Ctx) (e : Event) : Ctx :=
  { c with trace := e :: c.trace }

def Ctx.err (c : Ctx) (code : virErrorNumber) (msg : String) : Ctx :=
  c.emit (.lxcError code msg)

def Ctx.writeBack (i : Nat) (c : Ctx) : World :=
  { c.toWorld with driver := { c.driver with vms := c.driver.vms.set i c.vm } }

/-- Descriptors open in the driver process according to a trace: a successful
`posix_openpt` or `socketpair` opens, `close` closes. -/
def openFds : List Event → List Int
  | [] => []
  | .posix_openpt fd :: older => if 0 ≤ fd then fd :: openFds older else openFds older
  | .socketpair rc fd0 fd1 :: older =>
    if rc = 0 then fd0 :: fd1 :: openFds older else openFds older
  | .close fd :: older => (openFds older).filter (fun x => x != fd)
  | _ :: older => openFds older

/-! ## PTY setup -/

/-- Outcomes of the calls made by `lxcSetupTtyTunnel`. -/
structure TtyTunnelEnv where
  posix_openpt : Int
  grantpt : Int
  unlockpt : Int
  ptsname : Option String
  strdup_ok : Bool
  tcgetattr : Int
  tcsetattr : Int
  deriving DecidableEq

/-- `lxcPutTtyInRawMode`. -/
def lxcPutTtyInRawMode (env : TtyTunnelEnv) (c : Ctx) : Int × Ctx :=
  if env.tcgetattr < 0 then
    (-1, c.err .VIR_ERR_INTERNAL_ERROR "tcgetattr() failed: %s")
  else if env.tcsetattr < 0 then
    (-1, c.err .VIR_ERR_INTERNAL_ERROR "tcsetattr failed: %s")
  else (0, c)

/-- The `setup_complete:` block of `lxcSetupTtyTunnel`. -/
def lxcSetupTtyTunnel_complete (rc : Int) (c : Ctx) : Int × Ctx :=
  if 0 ≠ rc ∧ c.vm.parentTty > 0 then (rc, c.emit (.close c.vm.parentTty)) else (rc, c)

/-- `lxcSetupTtyTunnel` with `ttyDev = &vm->parentTty`.  The result is `none`
when the call does not return (`strlen` of a `NULL` tty). -/
def lxcSetupTtyTunnel (env : TtyTunnelEnv) (c : Ctx) : Option (Int × Ctx) :=
  match c.vm.vmdef.tty with
  | none => none
  | some tty =>
    if 0 < tty.length then
      let c1 : Ctx :=
        ({ c with vm := { c.vm with parentTty := env.posix_openpt } } : Ctx).emit
          (.posix_openpt env.posix_openpt)
      if env.posix_openpt < 0 then
        some (lxcSetupTtyTunnel_complete (-1)
          (c1.err .VIR_ERR_INTERNAL_ERROR "open() tty failed: %s"))
      else if env.grantpt < 0 then
        some (lxcSetupTtyTunnel_complete env.grantpt
          (c1.err .VIR_ERR_INTERNAL_ERROR "grantpt() failed: %s"))
      else if env.unlockpt < 0 then
        some (lxcSetupTtyTunnel_complete env.unlockpt
          (c1.err .VIR_ERR_INTERNAL_ERROR "unlockpt() failed: %s"))
      else
        match env.ptsname with
        | none =>
          some (lxcSetupTtyTunnel_complete env.unlockpt
            (c1.err .VIR_ERR_INTERNAL_ERROR "ptsname() failed"))
        | some ptsStr =>
          if !env.strdup_ok then
            let c2 : Ctx :=
              { c1 with vm := { c1.vm with vmdef := { c1.vm.vmdef with tty := none } } }
            some (lxcSetupTtyTunnel_complete env.unlockpt
              (c2.err .VIR_ERR_NO_MEMORY "unable to get storage for vm tty name"))
          else
            let c2 : Ctx :=
              { c1 with vm := { c1.vm with vmdef := { c1.vm.vmdef with tty := some ptsStr } } }
            let raw := lxcPutTtyInRawMode env c2
            if raw.1 < 0 then some (lxcSetupTtyTunnel_complete env.unlockpt raw.2)
            else some (lxcSetupTtyTunnel_complete 0 raw.2)
    else
      some (lxcSetupTtyTunnel_complete 0
        { c with vm := { c.vm with parentTty := -1 } })

/-- Outcomes of the calls made by `lxcSetupContainerTty`. -/
structure ContainerTtyEnv where
  posix_openpt : Int
  unlockpt : Int
  ptsname_r : Int
  tempTtyName : String
  alloc_ok : Bool
  deriving DecidableEq

/-- The `cleanup:` block of `lxcSetupContainerTty`. -/
def lxcSetupContainerTty_cleanup (rc : Int) (c : Ctx) : Int × Ctx :=
  if 0 ≠ rc ∧ -1 ≠ c.vm.containerTtyFd then (rc, c.emit (.close c.vm.containerTtyFd))
  else (rc, c)

/-- `lxcSetupContainerTty` with `ttymaster = &vm->containerTtyFd` and
`ttyName = &vm->containerTty`. -/
def lxcSetupContainerTty (env : ContainerTtyEnv) (c : Ctx) : Int × Ctx :=
  let c1 : Ctx :=
    ({ c with vm := { c.vm with containerTtyFd := env.posix_openpt } } : Ctx).emit
      (.posix_openpt env.posix_openpt)
  if env.posix_openpt < 0 then
    lxcSetupContainerTty_cleanup (-1)
      (c1.err .VIR_ERR_INTERNAL_ERROR "posix_openpt failed: %s")
  else if env.unlockpt < 0 then
    lxcSetupContainerTty_cleanup (-1)
      (c1.err .VIR_ERR_INTERNAL_ERROR "unlockpt failed: %s")
  else if 0 ≠ env.ptsname_r then
    lxcSetupContainerTty_cleanup (-1)
      (c1.err .VIR_ERR_INTERNAL_ERROR "ptsname_r failed: %s")
  else if !env.alloc_ok then
    let c2 : Ctx := { c1 with vm := { c1.vm with containerTty := none } }
    lxcSetupContainerTty_cleanup (-1)
      (c2.err .VIR_ERR_NO_MEMORY "unable to allocate container name string")
  else
    lxcSetupContainerTty_cleanup 0
      { c1 with vm := { c1.vm with containerTty := some env.tempTtyName } }

/-! ## Network interfaces -/

/-- Outcomes of the calls made by `lxcSetupInterfaces`; the first argument is
the number of the loop iteration (0 for the first interface).
`virNetworkLookupByName i name` is `none` when the lookup fails and
`some bridge` when it succeeds, `bridge` being what `virNetworkGetBridgeName`
then returns.  `vethCreate i parentVeth containerVeth` returns the return code
and the contents of the two name buffers after the call. -/
structure SetupIfEnv where
  virNetworkLookupByName : Nat → Option String → Option (Option String)
  vethCreate : Nat → String → String → Int × String × String
  strdup_parent_ok : Nat → Bool
  strdup_container_ok : Nat → Bool
  brInit : Nat → Int
  brAddInterface : Nat → String → String → Int
  vethInterfaceUpOrDown : Nat → String → Int

/-- Local variables of `lxcSetupInterfaces` that live across loop iterations,
with the bridge-control handle and the trace. -/
structure IfLoop where
  rc : Int
  parentVeth : String
  containerVeth : String
  brctl : Bool
  trace : List Event
  deriving DecidableEq

def IfLoop.err (s : IfLoop) (code : virErrorNumber) (msg : String) : IfLoop :=
  { s with trace := .lxcError code msg :: s.trace }

/-- One iteration of the `for` loop of `lxcSetupInterfaces`, after the bridge
name has been resolved: returns `true` when the loop goes on to the next
interface and `false` on `goto error_exit`, with the interface and the locals
as left by the iteration.  The values of the locals after each step are named
first (`s1` after `vethCreate`, `net2` after the two `strdup`s, `s2` after
`brInit`, `s3` after `brAddInterface`, `s4` after `vethInterfaceUpOrDown`); the
chain of tests that follows picks the one with which the iteration ends. -/
def lxcSetupInterfaces_iter (env : SetupIfEnv) (i : Nat) (net : lxc_net_def_t)
    (bridge : String) (s : IfLoop) : Bool × lxc_net_def_t × IfLoop :=
  let pbuf := match net.parentVeth with
    | some v => v
    | none => s.parentVeth
  let cbuf := match net.containerVeth with
    | some v => v
    | none => s.containerVeth
  let r := env.vethCreate i pbuf cbuf
  let s1 : IfLoop :=
    { s with rc := r.1, parentVeth := r.2.1, containerVeth := r.2.2,
             trace := .vethCreate pbuf cbuf :: s.trace }
  let net1 : lxc_net_def_t :=
    if net.parentVeth = none then
      { net with parentVeth := if env.strdup_parent_ok i then some s1.parentVeth else none }
    else net
  let net2 : lxc_net_def_t :=
    if net1.containerVeth = none then
      { net1 with
        containerVeth := if env.strdup_container_ok i then some s1.containerVeth else none }
    else net1
  let s2 : IfLoop :=
    if !s1.brctl then
      { s1 with rc := env.brInit i, brctl := decide (env.brInit i = 0),
                trace := .brInit :: s1.trace }
    else s1
  let s3 : IfLoop :=
    { s2 with rc := env.brAddInterface i bridge s2.parentVeth,
              trace := .brAddInterface bridge s2.parentVeth :: s2.trace }
  let s4 : IfLoop :=
    { s3 with rc := env.vethInterfaceUpOrDown i s3.parentVeth,
              trace := .vethInterfaceUpOrDown s3.parentVeth 1 :: s3.trace }
  if 0 ≠ r.1 then
    (false, net, s1.err .VIR_ERR_INTERNAL_ERROR "failed to create veth device pair: %d")
  else if net2.parentVeth = none ∨ net2.containerVeth = none then
    (false, net2, s1.err .VIR_ERR_INTERNAL_ERROR "failed to allocate veth names")
  else if !s1.brctl ∧ env.brInit i ≠ 0 then
    (false, net2, s2.err .VIR_ERR_INTERNAL_ERROR "cannot initialize bridge support: %s")
  else if 0 ≠ s3.rc then
    (false, net2, s3.err .VIR_ERR_INTERNAL_ERROR "failed to add %s device to %s: %s")
  else if 0 ≠ s4.rc then
    (false, net2, s4.err .VIR_ERR_INTERNAL_ERROR "failed to enable parent ns veth device: %d")
  else (true, net2, s4)

/-- The `for` loop of `lxcSetupInterfaces` over the interfaces still to visit,
followed by `rc = 0` when the list is exhausted.  Returns the interfaces as
left by the loop and the locals at `error_exit:`. -/
def lxcSetupInterfaces_loop (env : SetupIfEnv) :
    Nat → List lxc_net_def_t → IfLoop → List lxc_net_def_t × IfLoop
  | _, [], s => ([], { s with rc := 0 })
  | i, net :: rest, s =>
    let resolved : Option (Option String) × IfLoop :=
      match net.type with
      | .LXC_NET_NETWORK =>
        (env.virNetworkLookupByName i net.txName,
          { s with trace := .virNetworkLookupByName net.txName :: s.trace })
      | .LXC_NET_BRIDGE => (some net.txName, s)
    match resolved.1 with
    | none => (net :: rest, resolved.2)
    | some none =>
      (net :: rest,
        resolved.2.err .VIR_ERR_INTERNAL_ERROR "failed to get bridge for interface")
    | some (some bridge) =>
      let r := lxcSetupInterfaces_iter env i net bridge resolved.2
      if r.1 then
        let tail := lxcSetupInterfaces_loop env (i + 1) rest r.2.2
        (r.2.1 :: tail.1, tail.2)
      else (r.2.1 :: rest, r.2.2)

/-- `lxcSetupInterfaces`.  Names are assumed to fit the `PATH_MAX` buffers. -/
def lxcSetupInterfaces (env : SetupIfEnv) (c : Ctx) : Int × Ctx :=
  if c.vm.vmdef.nets ≠ [] ∧ c.driver.have_netns = 0 then
    (-1, c.err .VIR_ERR_NO_SUPPORT "System lacks NETNS support")
  else
    let r := lxcSetupInterfaces_loop env 0 c.vm.vmdef.nets
      { rc := -1, parentVeth := "", containerVeth := "", brctl := c.brctl, trace := c.trace }
    (r.2.rc,
      { c with vm := { c.vm with vmdef := { c.vm.vmdef with nets := r.1 } },
               brctl := r.2.brctl, trace := r.2.trace })

/-- The loop of `lxcMoveInterfacesToNetNs`; `move i` is the return code of
`moveInterfaceToNetNs` in iteration `i`. -/
def lxcMoveInterfacesToNetNs_loop (move : Nat → Int) (id : Int) :
    Nat → List lxc_net_def_t → List Event → Int × List Event
  | _, [], trace => (0, trace)
  | i, net :: rest, trace =>
    let t1 := Event.moveInterfaceToNetNs net.containerVeth id :: trace
    if 0 ≠ move i then
      (-1, .lxcError .VIR_ERR_INTERNAL_ERROR "failed to move interface %s to ns %d" :: t1)
    else lxcMoveInterfacesToNetNs_loop move id (i + 1) rest t1

/-- `lxcMoveInterfacesToNetNs`. -/
def lxcMoveInterfacesToNetNs (move : Nat → Int) (c : Ctx) : Int × Ctx :=
  let r := lxcMoveInterfacesToNetNs_loop move c.vm.vmdef.id 0 c.vm.vmdef.nets c.trace
  (r.1, { c with trace := r.2 })

/-- The loop of `lxcCleanupInterfaces`; `vethDelete i` is the return code of
`vethDelete` in iteration `i`. -/
def lxcCleanupInterfaces_loop (vethDelete : Nat → Int) :
    Nat → List lxc_net_def_t → List Event → List Event
  | _, [], trace => trace
  | i, net :: rest, trace =>
    let t1 := Event.vethDelete net.parentVeth :: trace
    if 0 ≠ vethDelete i then
      lxcCleanupInterfaces_loop vethDelete (i + 1) rest
        (.lxcError .VIR_ERR_INTERNAL_ERROR "failed to delete veth: %s" :: t1)
    else lxcCleanupInterfaces_loop vethDelete (i + 1) rest t1

/-- `lxcCleanupInterfaces`: always returns 0. -/
def lxcCleanupInterfaces (vethDelete : Nat → Int) (c : Ctx) : Int × Ctx :=
  (0, { c with trace := lxcCleanupInterfaces_loop vethDelete 0 c.vm.vmdef.nets c.trace })

/-! ## Container launcher -/

/-- Outcomes of the calls made by `lxcVmStart` and the functions it calls.
`fork` and `clone` are the values returned in the calling process;
`socketpair_fds` are the descriptors stored on success; `safewrite` is the
byte count returned when sending the CONTINUE token. -/
structure StartEnv where
  tunnel : TtyTunnelEnv
  ctty : ContainerTtyEnv
  fork : Int
  lxcStoreTtyPid : Int
  ifs : SetupIfEnv
  socketpair : Int
  socketpair_fds : Int × Int
  alloc_stack_ok : Bool
  clone : Int
  moveInterfaceToNetNs : Nat → Int
  safewrite : Int

/-- `lxcSendContainerContinue` (the `vm` pointer is never `NULL` here). -/
def lxcSendContainerContinue (env : StartEnv) (c : Ctx) : Int × Ctx :=
  let c1 := c.emit (.safewrite c.vm.sockpair0)
  if env.safewrite ≠ sizeof_lxc_message_t then
    (-1, c1.err .VIR_ERR_INTERNAL_ERROR "unable to send container continue message: %s")
  else (0, c1)

/-- Flags passed to `clone` by `lxcStartContainer`. -/
def lxcStartContainer_flags (vm : lxc_vm_t) : Nat :=
  let flags :=
    CLONE_NEWPID ||| CLONE_NEWNS ||| CLONE_NEWUTS ||| CLONE_NEWUSER ||| CLONE_NEWIPC ||| SIGCHLD
  if vm.vmdef.nets ≠ [] then flags ||| CLONE_NEWNET else flags

/-- `lxcStartContainer`. -/
def lxcStartContainer (env : StartEnv) (c : Ctx) : Int × Ctx :=
  if !env.alloc_stack_ok then
    (-1, c.err .VIR_ERR_NO_MEMORY "unable to allocate container stack")
  else
    let c1 : Ctx :=
      ({ c with vm := { c.vm with vmdef := { c.vm.vmdef with id := env.clone } } } : Ctx).emit
        (.clone (lxcStartContainer_flags c.vm) env.clone)
    if c1.vm.vmdef.id < 0 then
      (-1, c1.err .VIR_ERR_INTERNAL_ERROR "clone() failed, %s")
    else (0, c1.emit (.call "lxcSaveConfig"))

/-- The part of `lxcVmStart` from the `lxcStartContainer` call to the
`cleanup:` label.  Returns the value of `rc` and the state with which
`cleanup:` is reached. -/
def lxcVmStart_release (env : StartEnv) (c : Ctx) : Int × Ctx :=
  let r7 := lxcStartContainer env c
  if r7.1 ≠ 0 then r7
  else
    let r8 := lxcMoveInterfacesToNetNs env.moveInterfaceToNetNs r7.2
    if r8.1 ≠ 0 then r8
    else
      let r9 := lxcSendContainerContinue env r8.2
      if r9.1 ≠ 0 then r9
      else
        (r9.1,
          { r9.2 with
            vm := { r9.2.vm with state := .VIR_DOMAIN_RUNNING },
            driver := { r9.2.driver with
              ninactivevms := r9.2.driver.ninactivevms - 1,
              nactivevms := r9.2.driver.nactivevms + 1 } })

/-- The part of `lxcVmStart` from the `socketpair` call to the `cleanup:`
label; `rc` is the value of the local `rc` when `socketpair` is reached. -/
def lxcVmStart_launch (env : StartEnv) (rc : Int) (c : Ctx) : Int × Ctx :=
  if 0 ≠ env.socketpair then
    (rc,
      (c.emit (.socketpair env.socketpair env.socketpair_fds.1 env.socketpair_fds.2)).err
        .VIR_ERR_INTERNAL_ERROR "sockpair failed: %s")
  else
    lxcVmStart_release env
      (({ c with
          vm := { c.vm with
                  sockpair0 := env.socketpair_fds.1, sockpair1 := env.socketpair_fds.2 } } :
        Ctx).emit (.socketpair env.socketpair env.socketpair_fds.1 env.socketpair_fds.2))

/-- The part of `lxcVmStart` from the `lxcSetupInterfaces` call to the
`cleanup:` label. -/
def lxcVmStart_net (env : StartEnv) (c : Ctx) : Int × Ctx :=
  let r5 := lxcSetupInterfaces env.ifs c
  if 0 ≠ r5.1 then r5
  else lxcVmStart_launch env r5.1 r5.2

/-- The body of `lxcVmStart` up to the `cleanup:` label: returns the value of
`rc` and the state with which `cleanup:` is reached, or `none` when the call
does not return to its caller (the process is the forked console forwarder,
which runs `lxcTtyForward` and exits, or `strlen` was applied to a `NULL`
tty). -/
def lxcVmStart_body (env : StartEnv) (c : Ctx) : Option (Int × Ctx) :=
  -- open parent tty
  match lxcSetupTtyTunnel env.tunnel c with
  | none => none
  | some (r1, c1) =>
    if r1 < 0 then some (-1, c1)
    else
      -- open container tty
      let r2 := lxcSetupContainerTty env.ctty c1
      if r2.1 < 0 then some (-1, r2.2)
      else
        -- fork process to handle the tty io forwarding
        let c3 : Ctx :=
          ({ r2.2 with vm := { r2.2.vm with pid := env.fork } } : Ctx).emit (.fork env.fork)
        if env.fork < 0 then
          some (-1, c3.err .VIR_ERR_INTERNAL_ERROR "unable to fork tty forwarding process: %s")
        else if env.fork = 0 then none
        else
          let c4 : Ctx :=
            ((c3.emit (.call "lxcStoreTtyPid")).emit (.close c3.vm.parentTty)).emit
              (.close c3.vm.containerTtyFd)
          some (lxcVmStart_net env c4)

/-- The `cleanup:` block of `lxcVmStart`; `sockpair0` is
`sockpair[LXC_PARENT_SOCKET]`, `sockpair1` is `sockpair[LXC_CONTAINER_SOCKET]`. -/
def lxcVmStart_cleanup (r : Int × Ctx) : Int × Ctx :=
  let c1 := r.2.emit (.close r.2.vm.sockpair0)
  let c2 : Ctx := { c1 with vm := { c1.vm with sockpair0 := -1 } }
  let c3 := c2.emit (.close c2.vm.sockpair1)
  (r.1, { c3 with vm := { c3.vm with sockpair1 := -1 } })

/-- `lxcVmStart`. -/
def lxcVmStart (env : StartEnv) (c : Ctx) : Option (Int × Ctx) :=
  (lxcVmStart_body env c).map lxcVmStart_cleanup

/-- `lxcDomainStart`. -/
def lxcDomainStart (env : StartEnv) (w : World) (dom : virDomain) : Option (Int × World) :=
  match lxcFindVMByName w.driver dom.name with
  | none => some (-1, w.err .VIR_ERR_INVALID_DOMAIN "no domain with uuid")
  | some (i, vm) =>
    (lxcVmStart env { w with vm := vm }).map (fun r => (r.1, r.2.writeBack i))

/-! ## Reaper -/

/-- Result of a failing-or-not system call: return value and the value of
`errno` after the call. -/
structure SysResult where
  rc : Int
  errno : Int
  deriving DecidableEq

/-- Result of one `waitpid` call: return value, the value of `errno` after the
call, and the status written through the status pointer, if any. -/
structure WaitOutcome where
  rc : Int
  errno : Int
  status : Option Int
  deriving DecidableEq

/-- `WIFEXITED` of glibc: `((status) & 0x7f) == 0`. -/
def WIFEXITED (status : Int) : Bool := Int.emod status 128 == 0

/-- `WEXITSTATUS` of glibc: `((status) & 0xff00) >> 8`. -/
def WEXITSTATUS (status : Int) : Int := Int.emod (Int.ediv status 256) 256

/-- The loop `while (((waitRc = waitpid(pid, &childStatus, 0)) == -1) &&
errno == EINTR);` run against the scripted outcomes of the successive calls.
Returns `waitRc`, `errno`, `childStatus` and the trace after the loop, or
`none` when every scripted call is interrupted (the loop has not ended). -/
def waitpidRetry (pid : Int) :
    List WaitOutcome → Int → List Event → Option (Int × Int × Int × List Event)
  | [], _, _ => none
  | o :: later, childStatus, trace =>
    let st := o.status.getD childStatus
    let t1 := Event.waitpid pid :: trace
    if o.rc = -1 ∧ o.errno = EINTR then waitpidRetry pid later st t1
    else some (o.rc, o.errno, st, t1)

/-- Outcomes of the calls made by `lxcVMCleanup`. -/
structure CleanupEnv where
  vethDelete : Nat → Int
  waitContainer : List WaitOutcome
  killTty : SysResult
  waitTty : List WaitOutcome

/-- The `tty_error_out:` block of `lxcVMCleanup`. -/
def lxcVMCleanup_out (rc : Int) (c : Ctx) : Int × Ctx :=
  let c1 : Ctx :=
    ({ c with vm := { c.vm with state := .VIR_DOMAIN_SHUTOFF, pid := -1 } } : Ctx).emit
      (.call "lxcDeleteTtyPidFile")
  let c2 : Ctx :=
    { c1 with
      vm := { c1.vm with vmdef := { c1.vm.vmdef with id := -1 } },
      driver := { c1.driver with nactivevms := c1.driver.nactivevms - 1,
                                 ninactivevms := c1.driver.ninactivevms + 1 } }
  (rc, c2.emit (.call "lxcSaveConfig"))

/-- The part of `lxcVMCleanup` from the `kill_tty:` label on; `rc` and
`childStatus` are the values of the locals when the label is reached. -/
def lxcVMCleanup_kill_tty (env : CleanupEnv) (rc : Int) (childStatus : Int) (c : Ctx) :
    Option (Int × Ctx) :=
  if 2 > c.vm.pid then some (lxcVMCleanup_out rc c)
  else
    let c4 := c.emit (.kill c.vm.pid SIGKILL)
    if 0 > env.killTty.rc ∧ ESRCH ≠ env.killTty.errno then
      some (lxcVMCleanup_out rc
        (c4.err .VIR_ERR_INTERNAL_ERROR "sending SIGKILL to tty process failed: %s"))
    else
      match waitpidRetry c4.vm.pid env.waitTty childStatus c4.trace with
      | none => none
      | some (waitRc, errno, _, t5) =>
        let c5 : Ctx := { c4 with trace := t5 }
        if waitRc ≠ c5.vm.pid ∧ errno ≠ ECHILD then
          some (lxcVMCleanup_out rc
            (c5.err .VIR_ERR_INTERNAL_ERROR "waitpid failed to wait for tty %d: %d %s"))
        else some (lxcVMCleanup_out rc c5)

/-- `lxcVMCleanup`; `none` when one of its `waitpid` loops has not ended. -/
def lxcVMCleanup (env : CleanupEnv) (c : Ctx) : Option (Int × Ctx) :=
  -- if this fails, we'll continue.  it will report any errors
  let c1 := (lxcCleanupInterfaces env.vethDelete c).2
  match waitpidRetry c1.vm.vmdef.id env.waitContainer (-1) c1.trace with
  | none => none
  | some (waitRc, errno, childStatus, t2) =>
    let c2 : Ctx := { c1 with trace := t2 }
    if waitRc ≠ c2.vm.vmdef.id ∧ errno ≠ ECHILD then
      lxcVMCleanup_kill_tty env (-1) childStatus
        (c2.err .VIR_ERR_INTERNAL_ERROR "waitpid failed to wait for container %d: %d %s")
    else if WIFEXITED childStatus then
      lxcVMCleanup_kill_tty env (WEXITSTATUS childStatus) childStatus c2
    else lxcVMCleanup_kill_tty env 0 childStatus c2

/-- Outcomes of the calls made by `lxcDomainDestroy`. -/
structure DestroyEnv where
  kill : SysResult
  cleanup : CleanupEnv

/-- `lxcDomainDestroy`. -/
def lxcDomainDestroy (env : DestroyEnv) (w : World) (dom : virDomain) :
    Option (Int × World) :=
  match lxcFindVMByID w.driver dom.id with
  | none => some (-1, w.err .VIR_ERR_INVALID_DOMAIN "no domain with id %d")
  | some (i, vm) =>
    let w1 := w.emit (.kill vm.vmdef.id SIGKILL)
    if 0 > env.kill.rc ∧ ESRCH ≠ env.kill.errno then
      some (-1, w1.err .VIR_ERR_INTERNAL_ERROR "sending SIGKILL failed: %s")
    else
      (lxcVMCleanup env.cleanup
        { w1 with vm := { vm with state := .VIR_DOMAIN_SHUTDOWN } }).map
        (fun r => (r.1, r.2.writeBack i))

/-! ## `lxcDomainShutdown` and `lxcSigHandler` -/

/-- `lxcDomainShutdown`; `kill` is the outcome of `kill(vm->def->id, SIGINT)`. -/
def lxcDomainShutdown (kill : SysResult) (w : World) (dom : virDomain) : Int × World :=
  match lxcFindVMByID w.driver dom.id with
  | none => (-1, w.err .VIR_ERR_INVALID_DOMAIN "no domain with id %d")
  | some (i, vm) =>
    let w1 := w.emit (.kill vm.vmdef.id SIGINT)
    if 0 > kill.rc ∧ ESRCH ≠ kill.errno then
      (-1, w1.err .VIR_ERR_INTERNAL_ERROR "sending SIGTERM failed: %s")
    else
      (0,
        { w1 with
          driver := { w1.driver with
            vms := w1.driver.vms.set i { vm with state := .VIR_DOMAIN_SHUTDOWN } } })

/-- The fields of `siginfo_t` that `lxcSigHandler` reads. -/
structure siginfo_t where
  si_signo : Int
  si_pid : Int
  deriving DecidableEq

/-- `lxcSigHandler`; the `World` holds the global driver `lxc_driver`, which is
not `NULL` here.  `none` when a `waitpid` loop of `lxcVMCleanup` has not
ended. -/
def lxcSigHandler (env : CleanupEnv) (w : World) (siginfo : siginfo_t) :
    Option (Int × World) :=
  if siginfo.si_signo = (SIGCHLD : Int) then
    match lxcFindVMByID w.driver siginfo.si_pid with
    | none => some (-1, w)
    | some (i, vm) =>
      (lxcVMCleanup env { w with vm := vm }).map (fun r => (r.1, r.2.writeBack i))
  else some (-1, w)

/-! ## Driver startup and shutdown -/

/-- Outcomes of the calls made by `lxcCheckContainerSupport`: whether the
stack allocation succeeds, the value `clone` returns and `errno` after it. -/
structure ContainerSupportEnv where
  alloc_stack_ok : Bool
  clone : Int
  errno : Int
  deriving DecidableEq

/-- `lxcCheckContainerSupport`; the flags only reach `clone`, whose outcome
is part of `env`. -/
def lxcCheckContainerSupport (env : ContainerSupportEnv) : Int :=
  if !env.alloc_stack_ok then -1
  else if 0 > env.clone ∧ EINVAL = env.errno then -1
  else 0

/-- Outcomes of the calls made by `lxcCheckNetNsSupport`: the return value
of `virRun`, the exit status `ip_rc` it stores, and the probe with
`CLONE_NEWNET`. -/
structure NetNsSupportEnv where
  virRun : Int
  ip_rc : Int
  support : ContainerSupportEnv
  deriving DecidableEq

/-- `lxcCheckNetNsSupport`: `kern_netns && user_netns`. -/
def lxcCheckNetNsSupport (env : NetNsSupportEnv) : Int :=
  let user_netns : Bool :=
    if env.virRun = 0 then WIFEXITED env.ip_rc && decide (WEXITSTATUS env.ip_rc ≠ 255)
    else false
  let kern_netns : Bool := decide (lxcCheckContainerSupport env.support = 0)
  if kern_netns && user_netns then 1 else 0

/-- `lxcShutdown` on the global `lxc_driver`: returns the return code and the
global as left by the call. -/
def lxcShutdown (lxc_driver : Option lxc_driver_t) : Int × Option lxc_driver_t :=
  match lxc_driver with
  | none => (-1, none)
  | some _ => (0, none)

/-- `lxcActive` on the global `lxc_driver`. -/
def lxcActive (lxc_driver : Option lxc_driver_t) : Int :=
  match lxc_driver with
  | none => 0
  | some driver => if driver.nactivevms ≠ 0 then 1 else 0

/-- Outcomes of the calls made by `lxcStartup`.  `lxcLoadDriverConfig` and
`lxcLoadContainerInfo` live in `lxc_conf.c`, which is not part of the sources;
they are parameters returning their return code and the driver as they leave
it. -/
structure StartupEnv where
  uid : Nat
  alloc_ok : Bool
  support : ContainerSupportEnv
  netns : NetNsSupportEnv
  lxcLoadDriverConfig : lxc_driver_t → Int × lxc_driver_t
  lxcLoadContainerInfo : lxc_driver_t → Int × lxc_driver_t

/-- The zero-filled driver structure that `VIR_ALLOC` hands out. -/
def zeroDriver : lxc_driver_t where
  vms := []
  nactivevms := 0
  ninactivevms := 0
  configDir := ""
  stateDir := ""
  have_netns := 0

/-- `lxcStartup` on the global `lxc_driver`: returns the return code and the
global as left by the call. -/
def lxcStartup (env : StartupEnv) (lxc_driver : Option lxc_driver_t) :
    Int × Option lxc_driver_t :=
  -- Check that the user is root
  if 0 ≠ env.uid then (-1, lxc_driver)
  else if !env.alloc_ok then (-1, none)
  -- Check that this is a container enabled kernel
  else if 0 ≠ lxcCheckContainerSupport env.support then (-1, some zeroDriver)
  else
    let driver1 : lxc_driver_t :=
      { zeroDriver with have_netns := lxcCheckNetNsSupport env.netns }
    -- Call function to load lxc driver configuration information
    let r2 := env.lxcLoadDriverConfig driver1
    if r2.1 < 0 then (-1, (lxcShutdown (some r2.2)).2)
    else
      -- Call function to load the container configuration files
      let r3 := env.lxcLoadContainerInfo r2.2
      if r3.1 < 0 then (-1, (lxcShutdown (some r3.2)).2)
      else (0, some r3.2)

/-! ## Console forwarder -/

def EPOLLIN : Nat := 0x001
def EPOLLHUP : Nat := 0x010

/-- Outcome of the calls made by `lxcFdForward`: the byte counts returned by
`saferead` and `safewrite` and the value of `errno` after the read. -/
structure FdForwardEnv where
  saferead : Int
  errno : Int
  safewrite : Int
  deriving DecidableEq

/-- `lxcFdForward`: returns 0, `EAGAIN` or -1. -/
def lxcFdForward (env : FdForwardEnv) : Int :=
  if 1 ≠ env.saferead then
    if EAGAIN = env.errno then EAGAIN else -1
  else if 1 ≠ env.safewrite then -1
  else 0

/-- Outcome of one `epoll_wait` call: its return value, the `events` mask and
the `data.u32` of the reported event, and `errno` after the call.  `data.u32`
is the array position registered with the descriptor. -/
structure EpollWait where
  numEvents : Int
  events : Nat
  u32 : Nat
  errno : Int
  deriving DecidableEq

/-- The locals of `lxcTtyForward` that live across loop iterations;
`active i` is `fdArray[i].active`. -/
structure FwdState where
  numActive : Int
  active : Nat → Bool
  curFdOff : Nat

/-- What one iteration of the loop of `lxcTtyForward` does: the timeout it
passes to `epoll_wait`, the locals with which it calls `lxcFdForward` (if it
does), and the locals with which the next iteration starts (`none` on
`goto cleanup`, which ends the process). -/
structure FwdIter where
  timeout : Int
  pumped : Option FwdState
  next : Option FwdState

/-- The block `if (0 < numActive) ...` that ends an iteration of the loop of
`lxcTtyForward`. -/
def lxcTtyForward_pump (f : FdForwardEnv) (timeout : Int) (s : FwdState) : FwdIter :=
  if 0 < s.numActive then
    if EAGAIN = lxcFdForward f then
      -- this fd no longer has data, set it as inactive
      ⟨timeout, some s,
        some { s with numActive := s.numActive - 1,
                      active := Function.update s.active s.curFdOff false }⟩
    else if -1 = lxcFdForward f then ⟨timeout, some s, none⟩
    else ⟨timeout, some s, some s⟩
  else ⟨timeout, none, some s⟩

/-- One iteration of the `while (1)` loop of `lxcTtyForward`. -/
def lxcTtyForward_iter (w : EpollWait) (f : FdForwardEnv) (s : FwdState) : FwdIter :=
  -- if active fd's, return if no events, else wait forever
  let timeout : Int := if s.numActive > 0 then 0 else -1
  if 0 < w.numEvents then
    if w.events &&& EPOLLIN ≠ 0 then
      let s1 : FwdState := { s with curFdOff := w.u32 }
      let s2 : FwdState :=
        if !s1.active s1.curFdOff then
          { s1 with active := Function.update s1.active s1.curFdOff true,
                    numActive := s1.numActive + 1 }
        else s1
      lxcTtyForward_pump f timeout s2
    else if w.events &&& EPOLLHUP ≠ 0 then ⟨timeout, none, some s⟩
    else ⟨timeout, none, none⟩
  else if 0 = w.numEvents then
    let s1 : FwdState :=
      if 2 = s.numActive then
        -- both fds active, toggle between the two
        { s with curFdOff := s.curFdOff ^^^ 1 }
      else
        -- only one active, if current is active, use it, else it
        -- must be the other one (ie. curFd just went inactive)
        { s with curFdOff := if s.active s.curFdOff then s.curFdOff else s.curFdOff ^^^ 1 }
    lxcTtyForward_pump f timeout s1
  else if EINTR = w.errno then ⟨timeout, none, some s⟩
  else ⟨timeout, none, none⟩

/-- The `while (1)` loop of `lxcTtyForward` run against the scripted outcomes
of the successive iterations: the locals with which the iteration after the
script starts, or `none` when the process has ended. -/
def lxcTtyForward_loop : List (EpollWait × FdForwardEnv) → FwdState → Option FwdState
  | [], s => some s
  | (w, f) :: later, s =>
    match (lxcTtyForward_iter w f s).next with
    | none => none
    | some s1 => lxcTtyForward_loop later s1

/-- Outcomes of the calls `lxcTtyForward` makes before its loop. -/
structure TtyForwardEnv where
  epoll_create : Int
  epoll_ctl1 : Int
  epoll_ctl2 : Int
  deriving DecidableEq

/-- `lxcTtyForward` run against a script: the locals with which the iteration
after the script starts, or `none` when the process has ended. -/
def lxcTtyForward (env : TtyForwardEnv) (script : List (EpollWait × FdForwardEnv)) :
    Option FwdState :=
  if 0 > env.epoll_create then none
  else if 0 > env.epoll_ctl1 then none
  else if 0 > env.epoll_ctl2 then none
  else lxcTtyForward_loop script ⟨0, fun _ => false, 0⟩

/-! ## Vocabulary used to state the properties -/

/-- Scheme of a possibly-`NULL` URI, `none` when the URI or its scheme is
`NULL`. -/
def uriScheme (uri : Option xmlURI) : Option String :=
  uri.bind (fun u => u.scheme)

/-- Kinds of the errors reported in a trace, newest first. -/
def errorKinds : List Event → List virErrorNumber
  | [] => []
  | .lxcError code _ :: older => code :: errorKinds older
  | _ :: older => errorKinds older

/-- Events that PTY setup may produce. -/
def Event.isTty : Event → Bool
  | .lxcError _ _ => true
  | .posix_openpt _ => true
  | .close _ => true
  | _ => false

/-- Events that `lxcSetupInterfaces` may produce. -/
def Event.isSetupIf : Event → Bool
  | .lxcError _ _ => true
  | .virNetworkLookupByName _ => true
  | .vethCreate _ _ => true
  | .brInit => true
  | .brAddInterface _ _ => true
  | .vethInterfaceUpOrDown _ _ => true
  | _ => false

/-- Events produced by the launcher before it sets up the interfaces. -/
def Event.isPtyPhase : Event → Bool
  | .fork _ => true
  | .call _ => true
  | e => e.isTty

/-- Events produced by the launcher before it creates the handshake pair. -/
def Event.isPrelaunch (e : Event) : Bool :=
  e.isPtyPhase || e.isSetupIf

/-- Events produced by the launcher after `clone` has returned a pid. -/
def Event.isRelease : Event → Bool
  | .lxcError _ _ => true
  | .moveInterfaceToNetNs _ _ => true
  | .safewrite _ => true
  | _ => false

/-- A veth pair creation, a `socketpair` call or a `clone` call. -/
def Event.isLaunch : Event → Bool
  | .vethCreate _ _ => true
  | .socketpair _ _ _ => true
  | .clone _ _ => true
  | _ => false

/-- A `clone` call that returned a pid. -/
def Event.isCloneOk : Event → Bool
  | .clone _ pid => decide (0 ≤ pid)
  | _ => false

/-- A successful `socketpair` call. -/
def Event.isSocketpairOk : Event → Bool
  | .socketpair rc _ _ => decide (rc = 0)
  | _ => false

/-- A call of `lxcAssignVMDef` or `lxcSaveVMDef`, the two steps by which
`lxcDomainDefine` registers a definition. -/
def Event.isRegistration : Event → Bool
  | .call fn => fn == "lxcAssignVMDef" || fn == "lxcSaveVMDef"
  | _ => false

/-- A `kill` call. -/
def Event.isKill : Event → Bool
  | .kill _ _ => true
  | _ => false

/-- The error report of `lxcDomainDestroy` for a failed kill of the container
root. -/
def Event.isKillFailure : Event → Bool
  | .lxcError _ msg => msg == "sending SIGKILL failed: %s"
  | _ => false

/-- Any event but the error report for a failed kill of the container root. -/
def Event.isNotKillFailure (e : Event) : Bool :=
  !e.isKillFailure

/-- Some scripted `waitpid` call is not interrupted, so that the retry loop
ends. -/
def waitEnds (script : List WaitOutcome) : Bool :=
  script.any (fun o => !(decide (o.rc = -1) && decide (o.errno = EINTR)))

/-- The trace `t'` extends the trace `t` by events that all satisfy `P`. -/
inductive Emits (P : Event → Bool) (t : List Event) : List Event → Prop where
  | refl : Emits P t t
  | cons (e : Event) (t' : List Event) : P e = true → Emits P t t' → Emits P t (e :: t')

/-- What PTY setup leaves alone. -/
def Ctx.ptyFrame (c : Ctx) :
    lxc_driver_t × Bool × virDomainState × Int × List lxc_net_def_t × Int × Int :=
  (c.driver, c.brctl, c.vm.state, c.vm.vmdef.id, c.vm.vmdef.nets, c.vm.sockpair0,
    c.vm.sockpair1)

/-- What the launcher leaves alone before it creates the handshake pair. -/
def Ctx.launchFrame (c : Ctx) : lxc_driver_t × virDomainState × Int × Int × Int :=
  (c.driver, c.vm.state, c.vm.vmdef.id, c.vm.sockpair0, c.vm.sockpair1)

/-- Runtime ids of the active records of a registry, in registry order. -/
def activeIds (vms : List lxc_vm_t) : List Int :=
  (vms.filter lxcIsActiveVM).map (fun vm => vm.vmdef.id)

/-- Collaborators that always fail, used in examples. -/
def failingOps : lxc_conf_ops where
  lxcParseVMDef := fun _ => none
  lxcAssignVMDef := fun _ _ => none
  lxcSaveVMDef := fun _ vm _ => (-1, vm)
  lxcRemoveInactiveVM := fun driver _ => driver
  lxcDeleteConfig := fun _ _ _ => -1
  virGetDomain := fun _ _ => none

/-- A definition without interfaces, used in examples. -/
def exampleDef (name : String) (id : Int) : lxc_vm_def_t where
  uuid := [1]
  name := name
  id := id
  maxMemory := 65536
  tty := some ""
  nets := []

/-- A record around `exampleDef`, used in examples. -/
def exampleVM (name : String) (id : Int) (state : virDomainState) : lxc_vm_t where
  pid := -1
  state := state
  parentTty := -1
  containerTtyFd := -1
  containerTty := none
  sockpair0 := -1
  sockpair1 := -1
  configFile := "/etc/libvirt/lxc/c.xml"
  vmdef := exampleDef name id

/-- A driver holding the given records, used in examples. -/
def exampleDriver (vms : List lxc_vm_t) (nactive ninactive have_netns : Int) :
    lxc_driver_t where
  vms := vms
  nactivevms := nactive
  ninactivevms := ninactive
  configDir := "/etc/libvirt/lxc"
  stateDir := "/var/run/libvirt/lxc"
  have_netns := have_netns

/-- Collaborators whose parser yields a definition with one bridged
interface, used in examples. -/
def bridgedOps : lxc_conf_ops :=
  { failingOps with
    lxcParseVMDef := fun _ =>
      some { exampleDef "c3" (-1) with nets := [⟨.LXC_NET_BRIDGE, some "br0", none, none⟩] } }

/-- A bridged interface that has not been set up yet, used in examples. -/
def exampleNet : lxc_net_def_t where
  type := .LXC_NET_BRIDGE
  txName := some "br0"
  parentVeth := none
  containerVeth := none

/-- Every call of the PTY tunnel setup succeeds. -/
def okTunnel : TtyTunnelEnv where
  posix_openpt := 5
  grantpt := 0
  unlockpt := 0
  ptsname := some "/dev/pts/3"
  strdup_ok := true
  tcgetattr := 0
  tcsetattr := 0

/-- Every call of the container console setup succeeds. -/
def okCtty : ContainerTtyEnv where
  posix_openpt := 6
  unlockpt := 0
  ptsname_r := 0
  tempTtyName := "/dev/pts/4"
  alloc_ok := true

/-- Every call of the interface setup succeeds; `vethCreate` keeps the names
it is given and fills in empty ones. -/
def okIfs : SetupIfEnv where
  virNetworkLookupByName := fun _ _ => some (some "virbr0")
  vethCreate := fun _ p c => (0, if p = "" then "veth0" else p, if c = "" then "veth1" else c)
  strdup_parent_ok := fun _ => true
  strdup_container_ok := fun _ => true
  brInit := fun _ => 0
  brAddInterface := fun _ _ _ => 0
  vethInterfaceUpOrDown := fun _ _ => 0

/-- Every call of the launcher succeeds; the forwarder gets pid 500, the
container pid 777, the handshake pair descriptors 7 and 8. -/
def okStart : StartEnv where
  tunnel := okTunnel
  ctty := okCtty
  fork := 500
  lxcStoreTtyPid := 0
  ifs := okIfs
  socketpair := 0
  socketpair_fds := (7, 8)
  alloc_stack_ok := true
  clone := 777
  moveInterfaceToNetNs := fun _ => 0
  safewrite := 1

/-- The reaper finds the container and the forwarder gone: every `waitpid`
reports `ECHILD`, the kill of the forwarder reports `ESRCH`. -/
def goneCleanup : CleanupEnv where
  vethDelete := fun _ => 0
  waitContainer := [⟨-1, ECHILD, none⟩]
  killTty := ⟨-1, ESRCH⟩
  waitTty := [⟨-1, ECHILD, none⟩]

/-- A process state around one inactive record with one bridged interface, on
a host without network-namespace support, used in examples. -/
def exampleNetCtx : Ctx where
  driver := exampleDriver [exampleVM "c1" (-1) .VIR_DOMAIN_SHUTOFF] 0 1 0
  brctl := false
  trace := []
  vm := { exampleVM "c1" (-1) .VIR_DOMAIN_SHUTOFF with
          vmdef := { exampleDef "c1" (-1) with nets := [exampleNet] } }

/-- A process state around one inactive record `c1` without interfaces and
without console, used in examples. -/
def exampleCtx : Ctx where
  driver := exampleDriver [exampleVM "c1" (-1) .VIR_DOMAIN_SHUTOFF] 0 1 0
  brctl := false
  trace := []
  vm := exampleVM "c1" (-1) .VIR_DOMAIN_SHUTOFF

/-- A process state around the running container `c2` (pid 777, forwarder
pid 500), used in examples. -/
def exampleRunning : World where
  driver :=
    exampleDriver [{ exampleVM "c2" 777 .VIR_DOMAIN_RUNNING with pid := 500 }] 1 0 0
  brctl := false
  trace := []

/-- The container root has exited with exit code 3 (wait status `0x0300`) and
is reaped by the first `waitpid`; the forwarder is reaped as well. -/
def exit3Cleanup : CleanupEnv where
  vethDelete := fun _ => 0
  waitContainer := [⟨777, 0, some 0x0300⟩]
  killTty := ⟨0, 0⟩
  waitTty := [⟨500, 0, some 9⟩]

/-- A process state around the running container `c2` (pid 777, forwarder
pid 500) with one bridged interface whose veth pair is `veth0`/`veth1`, used in
examples. -/
def exampleVethRunning : World where
  driver :=
    exampleDriver
      [{ exampleVM "c2" 777 .VIR_DOMAIN_RUNNING with
         pid := 500
         vmdef := { exampleDef "c2" 777 with
                    nets := [⟨.LXC_NET_BRIDGE, some "br0", some "veth0", some "veth1"⟩] } }]
      1 0 1
  brctl := true
  trace := []

/-- The two counters are the numbers of active and of inactive records. -/
def countersMatch (driver : lxc_driver_t) : Bool :=
  decide (driver.nactivevms = ((driver.vms.filter lxcIsActiveVM).length : Int)) &&
    decide (driver.ninactivevms =
      ((driver.vms.filter (fun vm => !lxcIsActiveVM vm)).length : Int))

/-- A `vethCreate` call. -/
def Event.isVethCreate : Event → Bool
  | .vethCreate _ _ => true
  | _ => false

/-- A `vethDelete` call. -/
def Event.isVethDelete : Event → Bool
  | .vethDelete _ => true
  | _ => false

/-- The `vethDelete` calls recorded in a trace, newest first. -/
def vethDeletes (trace : List Event) : List Event :=
  trace.filter Event.isVethDelete

/-- One `vethDelete` call per interface specification, on its stored host-side
name, the call for the last specification first (as in a trace). -/
def hostSideDeletes (nets : List lxc_net_def_t) : List Event :=
  (nets.map (fun net => Event.vethDelete net.parentVeth)).reverse

/-- Every call of the interface setup succeeds; `vethCreate` allocates fresh
names (`veth0`/`veth1` in the first call, `veth2`/`veth3` in later ones) for the
names it is given empty and keeps the names it is given non-empty. -/
def freshIfs : SetupIfEnv where
  virNetworkLookupByName := fun _ _ => some (some "virbr0")
  vethCreate := fun i p c =>
    (0, if p = "" then (if i = 0 then "veth0" else "veth2") else p,
      if c = "" then (if i = 0 then "veth1" else "veth3") else c)
  strdup_parent_ok := fun _ => true
  strdup_container_ok := fun _ => true
  brInit := fun _ => 0
  brAddInterface := fun _ _ _ => 0
  vethInterfaceUpOrDown := fun _ _ => 0

/-- As `freshIfs`, but `vethCreate` fails with return code 1 when it is given
non-empty names, as the creation of a pair whose names are taken does. -/
def rejectingIfs : SetupIfEnv :=
  { freshIfs with
    vethCreate := fun i p c =>
      if p = "" ∧ c = "" then
        (0, if i = 0 then "veth0" else "veth2", if i = 0 then "veth1" else "veth3")
      else (1, p, c) }

/-- A process state around one inactive record with two bridged interfaces
that have no veth names yet, on a host with network-namespace support, used in
examples. -/
def exampleTwoNetCtx : Ctx where
  driver := exampleDriver [exampleVM "c1" (-1) .VIR_DOMAIN_SHUTOFF] 0 1 1
  brctl := false
  trace := []
  vm := { exampleVM "c1" (-1) .VIR_DOMAIN_SHUTOFF with
          vmdef := { exampleDef "c1" (-1) with nets := [exampleNet, exampleNet] } }

/-- A startup by root on a kernel without container support: the probing
`clone` fails with `EINVAL`; everything else would succeed. -/
def noSupportStartup : StartupEnv where
  uid := 0
  alloc_ok := true
  support := ⟨true, -1, EINVAL⟩
  netns := ⟨0, 0, ⟨true, -1, EINVAL⟩⟩
  lxcLoadDriverConfig := fun driver => (0, driver)
  lxcLoadContainerInfo := fun driver => (0, driver)

/-- Number of sides of the forwarder whose active flag is set. -/
def FwdState.activeSides (s : FwdState) : Int :=
  (if s.active 0 then 1 else 0) + (if s.active 1 then 1 else 0)

/-- The timeout an iteration of the forwarder loop computes from `numActive`. -/
def FwdState.waitTimeout (s : FwdState) : Int :=
  if s.numActive > 0 then 0 else -1

/-- The loop invariant of `lxcTtyForward`: `numActive` counts the sides whose
active flag is set and `curFdOff` is an array position. -/
def FwdState.Inv (s : FwdState) : Prop :=
  s.numActive = s.activeSides ∧ s.curFdOff < 2

/-- Every reported event carries an array position registered with
`epoll_ctl`, that is 0 or 1. -/
def scriptRegistered (script : List (EpollWait × FdForwardEnv)) : Prop :=
  ∀ x ∈ script, x.1.u32 < 2

/-- Both sides of the forwarder are marked active and side 0 is current. -/
def bothActive : FwdState where
  numActive := 2
  active := fun _ => true
  curFdOff := 0

/-- The setup calls of the forwarder succeed. -/
def okForward : TtyForwardEnv where
  epoll_create := 3
  epoll_ctl1 := 0
  epoll_ctl2 := 0

/-- A script of two iterations: a readable event on side 1 whose byte is
forwarded, then a timeout with a read that would block. -/
def exampleScript : List (EpollWait × FdForwardEnv) :=
  [(⟨1, EPOLLIN, 1, 0⟩, ⟨1, 0, 1⟩), (⟨0, 0, 0, 0⟩, ⟨-1, EAGAIN, 0⟩)]

/-- The operations that C13 lets follow one another, each with the outcomes
of the calls it makes. -/
inductive DriverOp where
  | start (env : StartEnv) (dom : virDomain)
  | shutdown (kill : SysResult) (dom : virDomain)
  | destroy (env : DestroyEnv) (dom : virDomain)
  | signal (env : CleanupEnv) (siginfo : siginfo_t)

/-- The process state after an operation, `none` when it does not return. -/
def DriverOp.apply (op : DriverOp) (w : World) : Option World :=
  match op with
  | .start env dom => (lxcDomainStart env w dom).map (fun r => r.2)
  | .shutdown kill dom => some (lxcDomainShutdown kill w dom).2
  | .destroy env dom => (lxcDomainDestroy env w dom).map (fun r => r.2)
  | .signal env siginfo => (lxcSigHandler env w siginfo).map (fun r => r.2)

/-- The process state after a sequence of operations, `none` when one of them
does not return. -/
def runOps : List DriverOp → World → Option World
  | [], w => some w
  | op :: later, w =>
    match op.apply w with
    | none => none
    | some w1 => runOps later w1

/-- The two counters add up to the registry size. -/
def counterSum (driver : lxc_driver_t) : Prop :=
  driver.nactivevms + driver.ninactivevms = (driver.vms.length : Int)

/-! ## Theorems -/

theorem findVM_some (p : lxc_vm_t → Bool) (vms : List lxc_vm_t) (i : Nat) (vm : lxc_vm_t)
    (h : findVM p vms = some (i, vm)) : vms[i]? = some vm ∧ p vm = true := by
  induction vms generalizing i with
  | nil => simp [findVM] at h
  | cons v rest ih =>
    unfold findVM at h
    by_cases hp : p v = true
    · simp [hp] at h
      obtain ⟨rfl, rfl⟩ := h
      simp [hp]
    · simp [hp] at h
      obtain ⟨a, hab, rfl⟩ := h
      have := ih a hab
      simpa using this

theorem Emits.trans {P : Event → Bool} {t1 t2 t3 : List Event}
    (h12 : Emits P t1 t2) (h23 : Emits P t2 t3) : Emits P t1 t3 := by
  induction h23 with
  | refl => exact h12
  | cons e t' hp _ ih => exact Emits.cons e t' hp ih

theorem Emits.mono {P Q : Event → Bool} {t t' : List Event}
    (hPQ : ∀ e, P e = true → Q e = true) (h : Emits P t t') : Emits Q t t' := by
  induction h with
  | refl => exact Emits.refl
  | cons e t' hp _ ih => exact Emits.cons e t' (hPQ e hp) ih

theorem Emits.countP_eq {P : Event → Bool} (q : Event → Bool) {t t' : List Event}
    (hPq : ∀ e, P e = true → q e = false) (h : Emits P t t') :
    t'.countP q = t.countP q := by
  induction h with
  | refl => rfl
  | cons e t' hp _ ih => simp [List.countP_cons, hPq e hp, ih]

theorem lxcSetupTtyTunnel_frame (env : TtyTunnelEnv) (c : Ctx) (r : Int × Ctx)
    (h : lxcSetupTtyTunnel env c = some r) :
    Emits Event.isTty c.trace r.2.trace ∧ r.2.ptyFrame = c.ptyFrame := by
  unfold lxcSetupTtyTunnel at h
  dsimp only at h
  repeat' (split at h)
  all_goals
    simp only [Option.some.injEq, reduceCtorEq] at h
  all_goals
    subst h
    simp only [lxcSetupTtyTunnel_complete, lxcPutTtyInRawMode, Ctx.err, Ctx.emit,
      Ctx.ptyFrame]
    repeat' split
  all_goals
    refine ⟨?_, rfl⟩
    repeat (first | exact Emits.refl | refine Emits.cons _ _ rfl ?_)

theorem lxcSetupContainerTty_frame (env : ContainerTtyEnv) (c : Ctx) :
    Emits Event.isTty c.trace (lxcSetupContainerTty env c).2.trace ∧
      (lxcSetupContainerTty env c).2.ptyFrame = c.ptyFrame := by
  unfold lxcSetupContainerTty
  dsimp only
  repeat' split
  all_goals
    simp only [lxcSetupContainerTty_cleanup, Ctx.err, Ctx.emit, Ctx.ptyFrame]
    repeat' split
  all_goals
    refine ⟨?_, rfl⟩
    repeat (first | exact Emits.refl | refine Emits.cons _ _ rfl ?_)

theorem isTty_isPtyPhase (e : Event) (h : e.isTty = true) : e.isPtyPhase = true := by
  cases e <;> simp_all [Event.isTty, Event.isPtyPhase]

theorem lxcVmStart_body_pty (env : StartEnv) (c : Ctx) (r : Int × Ctx)
    (h : lxcVmStart_body env c = some r) :
    (r.1 = -1 ∧ r.2.ptyFrame = c.ptyFrame ∧ Emits Event.isPtyPhase c.trace r.2.trace) ∨
    (∃ c4, 0 < env.fork ∧ c4.ptyFrame = c.ptyFrame ∧
      Emits Event.isPtyPhase c.trace c4.trace ∧ r = lxcVmStart_net env c4) := by
  unfold lxcVmStart_body at h
  split at h
  · simp at h
  · rename_i r1 c1 h1
    obtain ⟨e1, f1⟩ := lxcSetupTtyTunnel_frame env.tunnel c (r1, c1) h1
    have e1 := e1.mono isTty_isPtyPhase
    obtain ⟨e2, f2⟩ := lxcSetupContainerTty_frame env.ctty c1
    have e2 := e2.mono isTty_isPtyPhase
    dsimp only at e1 f1 h
    split at h
    · simp only [Option.some.injEq] at h
      subst h
      exact Or.inl ⟨rfl, f1, e1⟩
    · split at h
      · simp only [Option.some.injEq] at h
        subst h
        exact Or.inl ⟨rfl, f2.trans f1, e1.trans e2⟩
      · split at h
        · simp only [Option.some.injEq] at h
          subst h
          refine Or.inl ⟨rfl, ?_, ?_⟩
          · rw [← f1, ← f2]; rfl
          · refine Emits.cons _ _ rfl (Emits.cons _ _ rfl (e1.trans e2))
        · split at h
          · simp at h
          · simp only [Option.some.injEq] at h
            refine Or.inr ⟨_, by omega, ?_, ?_, h.symm⟩
            · rw [← f1, ← f2]; rfl
            · refine Emits.cons _ _ rfl (Emits.cons _ _ rfl (Emits.cons _ _ rfl
                (Emits.cons _ _ rfl (e1.trans e2))))

theorem lxcSetupInterfaces_iter_emits (env : SetupIfEnv) (i : Nat) (net : lxc_net_def_t)
    (bridge : String) (s : IfLoop) :
    Emits Event.isSetupIf s.trace (lxcSetupInterfaces_iter env i net bridge s).2.2.trace := by
  unfold lxcSetupInterfaces_iter
  lift_lets
  intro pbuf cbuf r s1 net1 net2 s2 s3 s4
  have e1 : Emits Event.isSetupIf s.trace s1.trace := Emits.cons _ _ rfl Emits.refl
  have e2 : Emits Event.isSetupIf s1.trace s2.trace := by
    simp only [s2]
    split
    · exact Emits.cons _ _ rfl Emits.refl
    · exact Emits.refl
  have e3 : Emits Event.isSetupIf s2.trace s3.trace := Emits.cons _ _ rfl Emits.refl
  have e4 : Emits Event.isSetupIf s3.trace s4.trace := Emits.cons _ _ rfl Emits.refl
  split_ifs
  · exact e1.trans (Emits.cons _ _ rfl Emits.refl)
  · exact e1.trans (Emits.cons _ _ rfl Emits.refl)
  · exact (e1.trans e2).trans (Emits.cons _ _ rfl Emits.refl)
  · exact ((e1.trans e2).trans e3).trans (Emits.cons _ _ rfl Emits.refl)
  · exact (((e1.trans e2).trans e3).trans e4).trans (Emits.cons _ _ rfl Emits.refl)
  · exact ((e1.trans e2).trans e3).trans e4

theorem lxcSetupInterfaces_loop_emits (env : SetupIfEnv) (i : Nat)
    (nets : List lxc_net_def_t) (s : IfLoop) :
    Emits Event.isSetupIf s.trace (lxcSetupInterfaces_loop env i nets s).2.trace := by
  induction nets generalizing i s with
  | nil => exact Emits.refl
  | cons net rest ih =>
    unfold lxcSetupInterfaces_loop
    lift_lets
    intro resolved
    have e0 : Emits Event.isSetupIf s.trace resolved.2.trace := by
      simp only [resolved]
      split
      · exact Emits.cons _ _ rfl Emits.refl
      · exact Emits.refl
    split
    · exact e0
    · exact e0.trans (Emits.cons _ _ rfl Emits.refl)
    · rename_i bridge _
      have e1 := lxcSetupInterfaces_iter_emits env i net bridge resolved.2
      lift_lets
      intro r
      split
      · exact (e0.trans e1).trans (ih _ _)
      · exact e0.trans e1

theorem lxcSetupInterfaces_frame (env : SetupIfEnv) (c : Ctx) :
    Emits Event.isSetupIf c.trace (lxcSetupInterfaces env c).2.trace ∧
      (lxcSetupInterfaces env c).2.launchFrame = c.launchFrame := by
  unfold lxcSetupInterfaces
  split
  · exact ⟨Emits.cons _ _ rfl Emits.refl, rfl⟩
  · exact ⟨lxcSetupInterfaces_loop_emits env 0 c.vm.vmdef.nets
      { rc := -1, parentVeth := "", containerVeth := "", brctl := c.brctl, trace := c.trace },
      rfl⟩

theorem lxcMoveInterfacesToNetNs_loop_rc (move : Nat → Int) (id : Int) (i : Nat)
    (nets : List lxc_net_def_t) (t : List Event) :
    (lxcMoveInterfacesToNetNs_loop move id i nets t).1 = 0 ∨
      (lxcMoveInterfacesToNetNs_loop move id i nets t).1 = -1 := by
  induction nets generalizing i t with
  | nil => exact Or.inl rfl
  | cons net rest ih =>
    unfold lxcMoveInterfacesToNetNs_loop
    dsimp only
    split
    · exact Or.inr rfl
    · exact ih _ _

theorem lxcMoveInterfacesToNetNs_loop_countP (q : Event → Bool)
    (hq1 : ∀ v p, q (.moveInterfaceToNetNs v p) = false)
    (hq2 : ∀ code msg, q (.lxcError code msg) = false)
    (move : Nat → Int) (id : Int) (i : Nat) (nets : List lxc_net_def_t) (t : List Event) :
    (lxcMoveInterfacesToNetNs_loop move id i nets t).2.countP q = t.countP q := by
  induction nets generalizing i t with
  | nil => rfl
  | cons net rest ih =>
    unfold lxcMoveInterfacesToNetNs_loop
    dsimp only
    split
    · simp [List.countP_cons, hq1, hq2]
    · rw [ih]; simp [List.countP_cons, hq1]

theorem lxcMoveInterfacesToNetNs_loop_emits (move : Nat → Int) (id : Int) (i : Nat)
    (nets : List lxc_net_def_t) (t : List Event) :
    Emits Event.isRelease t (lxcMoveInterfacesToNetNs_loop move id i nets t).2 := by
  induction nets generalizing i t with
  | nil => exact Emits.refl
  | cons net rest ih =>
    unfold lxcMoveInterfacesToNetNs_loop
    dsimp only
    split
    · exact Emits.cons _ _ rfl (Emits.cons _ _ rfl Emits.refl)
    · exact (Emits.cons _ _ rfl Emits.refl).trans (ih _ _)

/-- The ways in which `lxcVmStart_release` ends: stack allocation fails, `clone`
fails, a step after `clone` fails, or everything succeeds. -/
theorem lxcVmStart_release_cases (env : StartEnv) (c : Ctx) :
    ((lxcVmStart_release env c).1 = -1 ∧
      (lxcVmStart_release env c).2.vm = c.vm ∧
      (lxcVmStart_release env c).2.driver = c.driver ∧
      (lxcVmStart_release env c).2.trace =
        .lxcError .VIR_ERR_NO_MEMORY "unable to allocate container stack" :: c.trace) ∨
    ((lxcVmStart_release env c).1 = -1 ∧ env.clone < 0 ∧
      (lxcVmStart_release env c).2.vm =
        { c.vm with vmdef := { c.vm.vmdef with id := env.clone } } ∧
      (lxcVmStart_release env c).2.driver = c.driver ∧
      (lxcVmStart_release env c).2.trace =
        .lxcError .VIR_ERR_INTERNAL_ERROR "clone() failed, %s" ::
          .clone (lxcStartContainer_flags c.vm) env.clone :: c.trace) ∨
    ((lxcVmStart_release env c).1 = -1 ∧ 0 ≤ env.clone ∧
      (lxcVmStart_release env c).2.vm =
        { c.vm with vmdef := { c.vm.vmdef with id := env.clone } } ∧
      (lxcVmStart_release env c).2.driver = c.driver ∧
      Emits Event.isRelease
        (.call "lxcSaveConfig" :: .clone (lxcStartContainer_flags c.vm) env.clone :: c.trace)
        (lxcVmStart_release env c).2.trace) ∨
    ((lxcVmStart_release env c).1 = 0 ∧ 0 ≤ env.clone ∧
      (lxcVmStart_release env c).2.vm =
        { c.vm with vmdef := { c.vm.vmdef with id := env.clone },
                    state := .VIR_DOMAIN_RUNNING } ∧
      (lxcVmStart_release env c).2.driver =
        { c.driver with ninactivevms := c.driver.ninactivevms - 1,
                        nactivevms := c.driver.nactivevms + 1 } ∧
      Emits Event.isRelease
        (.call "lxcSaveConfig" :: .clone (lxcStartContainer_flags c.vm) env.clone :: c.trace)
        (lxcVmStart_release env c).2.trace) := by
  by_cases ha : env.alloc_stack_ok = true
  · by_cases hc : env.clone < 0
    · refine Or.inr (Or.inl ?_)
      simp [lxcVmStart_release, lxcStartContainer, ha, hc, Ctx.emit, Ctx.err]
    · have hc0 : 0 ≤ env.clone := by omega
      have hmove := lxcMoveInterfacesToNetNs_loop_rc env.moveInterfaceToNetNs env.clone 0
        c.vm.vmdef.nets (.call "lxcSaveConfig" ::
          .clone (lxcStartContainer_flags c.vm) env.clone :: c.trace)
      have emove := lxcMoveInterfacesToNetNs_loop_emits env.moveInterfaceToNetNs env.clone 0
        c.vm.vmdef.nets (.call "lxcSaveConfig" ::
          .clone (lxcStartContainer_flags c.vm) env.clone :: c.trace)
      by_cases hm : (lxcMoveInterfacesToNetNs_loop env.moveInterfaceToNetNs env.clone 0
          c.vm.vmdef.nets (.call "lxcSaveConfig" ::
            .clone (lxcStartContainer_flags c.vm) env.clone :: c.trace)).1 = 0
      · by_cases hw : env.safewrite = sizeof_lxc_message_t
        · refine Or.inr (Or.inr (Or.inr ?_))
          simp [lxcVmStart_release, lxcStartContainer, lxcMoveInterfacesToNetNs,
            lxcSendContainerContinue, ha, hc, hc0, hm, hw, Ctx.emit, Ctx.err]
          exact emove.trans (Emits.cons _ _ rfl Emits.refl)
        · refine Or.inr (Or.inr (Or.inl ?_))
          simp [lxcVmStart_release, lxcStartContainer, lxcMoveInterfacesToNetNs,
            lxcSendContainerContinue, ha, hc, hc0, hm, hw, Ctx.emit, Ctx.err]
          exact emove.trans (Emits.cons _ _ rfl (Emits.cons _ _ rfl Emits.refl))
      · have hm1 := hmove.resolve_left hm
        refine Or.inr (Or.inr (Or.inl ?_))
        simp [lxcVmStart_release, lxcStartContainer, lxcMoveInterfacesToNetNs,
          ha, hc, hc0, hm, hm1, Ctx.emit, Ctx.err]
        exact emove
  · refine Or.inl ?_
    simp [lxcVmStart_release, lxcStartContainer, ha, Ctx.err, Ctx.emit]

theorem isPtyPhase_isPrelaunch (e : Event) (h : e.isPtyPhase = true) :
    e.isPrelaunch = true := by
  simp [Event.isPrelaunch, h]

theorem isSetupIf_isPrelaunch (e : Event) (h : e.isSetupIf = true) :
    e.isPrelaunch = true := by
  simp [Event.isPrelaunch, h]

theorem isPtyPhase_not_isLaunch (e : Event) (h : e.isPtyPhase = true) :
    e.isLaunch = false := by
  cases e <;> simp_all [Event.isPtyPhase, Event.isTty, Event.isLaunch]

theorem isPrelaunch_not_isCloneOk (e : Event) (h : e.isPrelaunch = true) :
    e.isCloneOk = false := by
  cases e <;>
    simp_all [Event.isPrelaunch, Event.isPtyPhase, Event.isTty, Event.isSetupIf,
      Event.isCloneOk]

theorem isPrelaunch_not_isSocketpairOk (e : Event) (h : e.isPrelaunch = true) :
    e.isSocketpairOk = false := by
  cases e <;>
    simp_all [Event.isPrelaunch, Event.isPtyPhase, Event.isTty, Event.isSetupIf,
      Event.isSocketpairOk]

theorem isPrelaunch_not_isKill (e : Event) (h : e.isPrelaunch = true) :
    e.isKill = false := by
  cases e <;>
    simp_all [Event.isPrelaunch, Event.isPtyPhase, Event.isTty, Event.isSetupIf,
      Event.isKill]

theorem isRelease_not_isKill (e : Event) (h : e.isRelease = true) : e.isKill = false := by
  cases e <;> simp_all [Event.isRelease, Event.isKill]

theorem isRelease_not_isCloneOk (e : Event) (h : e.isRelease = true) :
    e.isCloneOk = false := by
  cases e <;> simp_all [Event.isRelease, Event.isCloneOk]

theorem isRelease_not_isSocketpairOk (e : Event) (h : e.isRelease = true) :
    e.isSocketpairOk = false := by
  cases e <;> simp_all [Event.isRelease, Event.isSocketpairOk]

/-- Either `lxcVmStart` stops before it creates the handshake pair, with a
non-zero `rc`, or it reaches the `socketpair` call with `rc = 0`. -/
theorem lxcVmStart_body_cases (env : StartEnv) (c : Ctx) (rb : Int × Ctx)
    (h : lxcVmStart_body env c = some rb) :
    (rb.1 ≠ 0 ∧ rb.2.launchFrame = c.launchFrame ∧
      Emits Event.isPrelaunch c.trace rb.2.trace) ∨
    (∃ c5, c5.launchFrame = c.launchFrame ∧ Emits Event.isPrelaunch c.trace c5.trace ∧
      rb = lxcVmStart_launch env 0 c5) := by
  have hpl : ∀ a b : Ctx, a.ptyFrame = b.ptyFrame → a.launchFrame = b.launchFrame := by
    intro a b hab
    simp only [Ctx.ptyFrame, Prod.mk.injEq] at hab
    simp only [Ctx.launchFrame, Prod.mk.injEq]
    tauto
  rcases lxcVmStart_body_pty env c rb h with ⟨h1, hf, he⟩ | ⟨c4, _, hf, he, hr⟩
  · exact Or.inl ⟨by omega, hpl _ _ hf, he.mono isPtyPhase_isPrelaunch⟩
  · obtain ⟨e5, f5⟩ := lxcSetupInterfaces_frame env.ifs c4
    have he5 := (he.mono isPtyPhase_isPrelaunch).trans (e5.mono isSetupIf_isPrelaunch)
    have hf5 := f5.trans (hpl _ _ hf)
    unfold lxcVmStart_net at hr
    dsimp only at hr
    split at hr
    · rename_i hne
      subst hr
      exact Or.inl ⟨fun h0 => hne h0.symm, hf5, he5⟩
    · rename_i hne
      have h0 : (lxcSetupInterfaces env.ifs c4).1 = 0 := by omega
      rw [h0] at hr
      exact Or.inr ⟨_, hf5, he5, hr⟩

theorem lxcSetupInterfaces_guard (env : SetupIfEnv) (c : Ctx)
    (hnets : c.vm.vmdef.nets ≠ []) (hns : c.driver.have_netns = 0) :
    lxcSetupInterfaces env c =
      (-1, c.err .VIR_ERR_NO_SUPPORT "System lacks NETNS support") := by
  simp [lxcSetupInterfaces, hnets, hns]

theorem lxcVmStart_net_guard (env : StartEnv) (c : Ctx)
    (hnets : c.vm.vmdef.nets ≠ []) (hns : c.driver.have_netns = 0) :
    lxcVmStart_net env c =
      (-1, c.err .VIR_ERR_NO_SUPPORT "System lacks NETNS support") := by
  simp [lxcVmStart_net, lxcSetupInterfaces_guard env.ifs c hnets hns]

theorem countP_cleanup (q : Event → Bool) (hq : ∀ fd, q (.close fd) = false)
    (rb : Int × Ctx) :
    (lxcVmStart_cleanup rb).2.trace.countP q = rb.2.trace.countP q := by
  simp [lxcVmStart_cleanup, Ctx.emit, List.countP_cons, hq]

/-- Either `socketpair` fails, or the launcher goes on with the two
descriptors stored in the record. -/
theorem lxcVmStart_launch_cases (env : StartEnv) (rc : Int) (c : Ctx) :
    (env.socketpair ≠ 0 ∧ (lxcVmStart_launch env rc c).1 = rc ∧
      (lxcVmStart_launch env rc c).2.vm = c.vm ∧
      (lxcVmStart_launch env rc c).2.driver = c.driver ∧
      (lxcVmStart_launch env rc c).2.trace =
        .lxcError .VIR_ERR_INTERNAL_ERROR "sockpair failed: %s" ::
          .socketpair env.socketpair env.socketpair_fds.1 env.socketpair_fds.2 :: c.trace) ∨
    (env.socketpair = 0 ∧
      ∃ c6 : Ctx,
        c6.vm = { c.vm with sockpair0 := env.socketpair_fds.1,
                            sockpair1 := env.socketpair_fds.2 } ∧
        c6.driver = c.driver ∧
        c6.trace = .socketpair 0 env.socketpair_fds.1 env.socketpair_fds.2 :: c.trace ∧
        lxcVmStart_launch env rc c = lxcVmStart_release env c6) := by
  by_cases hs : env.socketpair = 0
  · refine Or.inr ⟨hs,
      (({ c with
          vm := { c.vm with
                  sockpair0 := env.socketpair_fds.1, sockpair1 := env.socketpair_fds.2 } } :
        Ctx).emit (.socketpair env.socketpair env.socketpair_fds.1 env.socketpair_fds.2)),
      rfl, rfl, ?_, ?_⟩
    · simp [Ctx.emit, hs]
    · simp [lxcVmStart_launch, hs]
  · have hs' : 0 ≠ env.socketpair := fun h => hs h.symm
    refine Or.inl ⟨hs, ?_⟩
    simp [lxcVmStart_launch, hs', Ctx.emit, Ctx.err]

theorem lxcVmStart_body_returns (env : StartEnv) (c : Ctx)
    (htty : c.vm.vmdef.tty ≠ none) (hfork : env.fork ≠ 0) :
    ∃ rb, lxcVmStart_body env c = some rb := by
  have h1 : ∃ r1, lxcSetupTtyTunnel env.tunnel c = some r1 := by
    unfold lxcSetupTtyTunnel
    split
    · rename_i hnone
      exact absurd hnone htty
    · dsimp only
      repeat' split
      all_goals exact ⟨_, rfl⟩
  obtain ⟨⟨r1, c1⟩, h1⟩ := h1
  unfold lxcVmStart_body
  rw [h1]
  dsimp only
  repeat' split
  all_goals exact ⟨_, rfl⟩

theorem lxcVmStart_body_sockets (env : StartEnv) (c : Ctx) (rb : Int × Ctx)
    (h : lxcVmStart_body env c = some rb)
    (hsock : rb.2.trace.countP Event.isSocketpairOk ≠ c.trace.countP Event.isSocketpairOk) :
    rb.2.vm.sockpair0 = env.socketpair_fds.1 ∧ rb.2.vm.sockpair1 = env.socketpair_fds.2 := by
  rcases lxcVmStart_body_cases env c rb h with ⟨_, _, he⟩ | ⟨c5, _, he, rfl⟩
  · exact absurd (he.countP_eq _ isPrelaunch_not_isSocketpairOk) hsock
  · have hc5 := he.countP_eq Event.isSocketpairOk isPrelaunch_not_isSocketpairOk
    rcases lxcVmStart_launch_cases env 0 c5 with
      ⟨hne, _, _, _, ht⟩ | ⟨_, c6, hvm6, _, _, hl⟩
    · rw [ht] at hsock
      simp [List.countP_cons, Event.isSocketpairOk, hc5, hne] at hsock
    · rw [hl]
      rcases lxcVmStart_release_cases env c6
        with ⟨_, hvm, _⟩ | ⟨_, _, hvm, _⟩ | ⟨_, _, hvm, _⟩ | ⟨_, _, hvm, _⟩
      all_goals
        rw [hvm, hvm6]
        exact ⟨rfl, rfl⟩

theorem waitpidRetry_returns (pid : Int) (script : List WaitOutcome) (st : Int)
    (t : List Event) (h : waitEnds script = true) :
    ∃ res, waitpidRetry pid script st t = some res := by
  induction script generalizing st t with
  | nil => simp [waitEnds] at h
  | cons o later ih =>
    unfold waitpidRetry
    dsimp only
    split
    · rename_i hint
      have hl : waitEnds later = true := by
        simp only [waitEnds, List.any_cons, Bool.or_eq_true] at h
        rcases h with h | h
        · simp [hint.1, hint.2] at h
        · exact h
      exact ih _ _ hl
    · exact ⟨_, rfl⟩

theorem waitpidRetry_emits (pid : Int) (script : List WaitOutcome) (st : Int)
    (t : List Event) (res : Int × Int × Int × List Event)
    (h : waitpidRetry pid script st t = some res) :
    Emits Event.isNotKillFailure t res.2.2.2 := by
  induction script generalizing st t with
  | nil => simp [waitpidRetry] at h
  | cons o later ih =>
    unfold waitpidRetry at h
    dsimp only at h
    split at h
    · exact (Emits.cons _ _ rfl Emits.refl).trans (ih _ _ h)
    · simp only [Option.some.injEq] at h
      subst h
      exact Emits.cons _ _ rfl Emits.refl

/-- The retry loop run against `n` interrupted calls followed by a call that
reports `ECHILD`. -/
theorem waitpidRetry_gone (pid : Int) (n : Nat) (later : List WaitOutcome) (st : Int)
    (t : List Event) :
    ∃ t', waitpidRetry pid
        (List.replicate n ⟨-1, EINTR, none⟩ ++ ⟨-1, ECHILD, none⟩ :: later) st t =
      some (-1, ECHILD, st, t') := by
  induction n generalizing t with
  | zero => exact ⟨Event.waitpid pid :: t, by simp [waitpidRetry, ECHILD, EINTR]⟩
  | succ n ih =>
    obtain ⟨t', ht'⟩ := ih (Event.waitpid pid :: t)
    exact ⟨t', by simpa [List.replicate_succ, waitpidRetry] using ht'⟩

theorem lxcCleanupInterfaces_loop_emits (vethDelete : Nat → Int) (i : Nat)
    (nets : List lxc_net_def_t) (t : List Event) :
    Emits Event.isNotKillFailure t (lxcCleanupInterfaces_loop vethDelete i nets t) := by
  induction nets generalizing i t with
  | nil => exact Emits.refl
  | cons net rest ih =>
    unfold lxcCleanupInterfaces_loop
    dsimp only
    split
    · exact (Emits.cons _ _ rfl (Emits.cons _ _ rfl Emits.refl)).trans (ih _ _)
    · exact (Emits.cons _ _ rfl Emits.refl).trans (ih _ _)

/-- What the `kill_tty:` part of `lxcVMCleanup` leaves behind whenever it
returns. -/
theorem lxcVMCleanup_kill_tty_post (env : CleanupEnv) (rc st : Int) (c : Ctx)
    (r : Int × Ctx) (h : lxcVMCleanup_kill_tty env rc st c = some r) :
    r.1 = rc ∧ Emits Event.isNotKillFailure c.trace r.2.trace ∧
    r.2.vm.state = .VIR_DOMAIN_SHUTOFF ∧ r.2.vm.vmdef.id = -1 ∧ r.2.vm.pid = -1 ∧
    r.2.driver.vms = c.driver.vms ∧
    r.2.driver.nactivevms = c.driver.nactivevms - 1 ∧
    r.2.driver.ninactivevms = c.driver.ninactivevms + 1 := by
  unfold lxcVMCleanup_kill_tty at h
  dsimp only at h
  split at h
  · simp only [Option.some.injEq] at h
    subst h
    refine ⟨rfl, ?_, rfl, rfl, rfl, rfl, rfl, rfl⟩
    exact Emits.cons _ _ rfl (Emits.cons _ _ rfl Emits.refl)
  · split at h
    · simp only [Option.some.injEq] at h
      subst h
      refine ⟨rfl, ?_, rfl, rfl, rfl, rfl, rfl, rfl⟩
      exact Emits.cons _ _ rfl (Emits.cons _ _ rfl (Emits.cons _ _ rfl
        (Emits.cons _ _ rfl Emits.refl)))
    · split at h
      · simp at h
      · rename_i waitRc errno st2 t5 h2
        have e5 : Emits Event.isNotKillFailure c.trace t5 :=
          (Emits.cons _ _ rfl Emits.refl).trans (waitpidRetry_emits _ _ _ _ _ h2)
        split at h
        · simp only [Option.some.injEq] at h
          subst h
          refine ⟨rfl, ?_, rfl, rfl, rfl, rfl, rfl, rfl⟩
          exact e5.trans (Emits.cons _ _ rfl (Emits.cons _ _ rfl (Emits.cons _ _ rfl
            Emits.refl)))
        · simp only [Option.some.injEq] at h
          subst h
          refine ⟨rfl, ?_, rfl, rfl, rfl, rfl, rfl, rfl⟩
          exact e5.trans (Emits.cons _ _ rfl (Emits.cons _ _ rfl Emits.refl))

theorem lxcVMCleanup_kill_tty_returns (env : CleanupEnv) (rc st : Int) (c : Ctx)
    (ht : waitEnds env.waitTty = true) :
    ∃ r, lxcVMCleanup_kill_tty env rc st c = some r := by
  unfold lxcVMCleanup_kill_tty
  dsimp only
  split
  · exact ⟨_, rfl⟩
  · split
    · exact ⟨_, rfl⟩
    · obtain ⟨res, h2⟩ := waitpidRetry_returns (c.emit (.kill c.vm.pid SIGKILL)).vm.pid
        env.waitTty st (c.emit (.kill c.vm.pid SIGKILL)).trace ht
      rw [h2]
      dsimp only
      split
      · exact ⟨_, rfl⟩
      · exact ⟨_, rfl⟩

/-- What `lxcVMCleanup` leaves behind whenever it returns. -/
theorem lxcVMCleanup_post (env : CleanupEnv) (c : Ctx) (r : Int × Ctx)
    (h : lxcVMCleanup env c = some r) :
    Emits Event.isNotKillFailure c.trace r.2.trace ∧
    r.2.vm.state = .VIR_DOMAIN_SHUTOFF ∧ r.2.vm.vmdef.id = -1 ∧ r.2.vm.pid = -1 ∧
    r.2.driver.vms = c.driver.vms ∧
    r.2.driver.nactivevms = c.driver.nactivevms - 1 ∧
    r.2.driver.ninactivevms = c.driver.ninactivevms + 1 := by
  have e0 : Emits Event.isNotKillFailure c.trace
      (lxcCleanupInterfaces env.vethDelete c).2.trace :=
    lxcCleanupInterfaces_loop_emits env.vethDelete 0 c.vm.vmdef.nets c.trace
  unfold lxcVMCleanup at h
  dsimp only at h
  split at h
  · simp at h
  · rename_i waitRc errno childStatus t2 h1
    have e1 := e0.trans (waitpidRetry_emits _ _ _ _ _ h1)
    dsimp only at e1
    split at h
    · obtain ⟨_, e, hrest⟩ := lxcVMCleanup_kill_tty_post _ _ _ _ _ h
      refine ⟨Emits.trans ?_ e, hrest⟩
      exact Emits.cons _ _ rfl e1
    · split at h
      · obtain ⟨_, e, hrest⟩ := lxcVMCleanup_kill_tty_post _ _ _ _ _ h
        exact ⟨e1.trans e, hrest⟩
      · obtain ⟨_, e, hrest⟩ := lxcVMCleanup_kill_tty_post _ _ _ _ _ h
        exact ⟨e1.trans e, hrest⟩

theorem lxcVMCleanup_returns (env : CleanupEnv) (c : Ctx)
    (hc : waitEnds env.waitContainer = true) (ht : waitEnds env.waitTty = true) :
    ∃ r, lxcVMCleanup env c = some r := by
  unfold lxcVMCleanup
  dsimp only
  obtain ⟨⟨waitRc, errno, childStatus, t2⟩, h1⟩ :=
    waitpidRetry_returns (lxcCleanupInterfaces env.vethDelete c).2.vm.vmdef.id
      env.waitContainer (-1) (lxcCleanupInterfaces env.vethDelete c).2.trace hc
  rw [h1]
  dsimp only
  repeat' split
  all_goals exact lxcVMCleanup_kill_tty_returns env _ _ _ ht

/-- When the container is gone (every `waitpid` on it is interrupted or reports
`ECHILD` without writing a status), `lxcVMCleanup` returns 0 if it returns. -/
theorem lxcVMCleanup_gone (env : CleanupEnv) (c : Ctx) (n : Nat)
    (later : List WaitOutcome)
    (hc : env.waitContainer =
      List.replicate n ⟨-1, EINTR, none⟩ ++ ⟨-1, ECHILD, none⟩ :: later)
    (r : Int × Ctx) (h : lxcVMCleanup env c = some r) : r.1 = 0 := by
  unfold lxcVMCleanup at h
  dsimp only at h
  obtain ⟨t', h1⟩ := waitpidRetry_gone (lxcCleanupInterfaces env.vethDelete c).2.vm.vmdef.id
    n later (-1) (lxcCleanupInterfaces env.vethDelete c).2.trace
  rw [hc, h1] at h
  dsimp only at h
  have hw : WIFEXITED (-1) = false := by decide
  simp only [ne_eq, not_true_eq_false, and_false, if_false, hw, Bool.false_eq_true] at h
  exact (lxcVMCleanup_kill_tty_post _ _ _ _ _ h).1

theorem waitEnds_gone (n : Nat) (later : List WaitOutcome) :
    waitEnds (List.replicate n ⟨-1, EINTR, none⟩ ++ ⟨-1, ECHILD, none⟩ :: later) = true := by
  simp [waitEnds, ECHILD, EINTR]

theorem isNotKillFailure_not_isKillFailure (e : Event) (h : e.isNotKillFailure = true) :
    e.isKillFailure = false := by
  simpa [Event.isNotKillFailure] using h

/-- The record a pointer was taken to is found again at its position after
`lxcVMCleanup` and the write-back. -/
theorem writeBack_getElem (w : World) (i : Nat) (vm0 : lxc_vm_t) (c : Ctx)
    (hi : w.driver.vms[i]? = some vm0) (hvms : c.driver.vms = w.driver.vms) :
    (c.writeBack i).driver.vms[i]? = some c.vm := by
  have hlt : i < w.driver.vms.length := by
    rcases Nat.lt_or_ge i w.driver.vms.length with h | h
    · exact h
    · rw [List.getElem?_eq_none h] at hi
      exact absurd hi (by simp)
  simp [Ctx.writeBack, hvms, hlt]

/-- C1 (as stated, refuted): a root caller with scheme "lxc" is declined when
the driver has not been started, so "root and scheme lxc" does not characterise
success. -/
theorem lxcOpen_root_lxc_declined_without_driver :
    ¬ ((lxcOpen 0 none ⟨none⟩ (some ⟨some "lxc"⟩)).1 = .VIR_DRV_OPEN_SUCCESS ↔
        ((0 : Nat) = 0 ∧ uriScheme (some ⟨some "lxc"⟩) = some "lxc")) := by
  simp [lxcOpen, uriScheme]

/-- C1 (amended): lxcOpen returns success exactly when the caller is root, the
global driver state exists and the URI scheme is "lxc"; on success the
connection is bound to the driver, and in every other case it returns declined
and leaves the connection unchanged. -/
theorem lxcOpen_success_iff (uid : Nat) (lxc_driver : Option lxc_driver_t)
    (conn : virConnect) (uri : Option xmlURI) :
    ((lxcOpen uid lxc_driver conn uri).1 = .VIR_DRV_OPEN_SUCCESS ↔
        (uid = 0 ∧ lxc_driver ≠ none ∧ uriScheme uri = some "lxc")) ∧
    ((lxcOpen uid lxc_driver conn uri).1 = .VIR_DRV_OPEN_SUCCESS →
        (lxcOpen uid lxc_driver conn uri).2.privateData = lxc_driver) ∧
    ((lxcOpen uid lxc_driver conn uri).1 ≠ .VIR_DRV_OPEN_SUCCESS →
        lxcOpen uid lxc_driver conn uri = (.VIR_DRV_OPEN_DECLINED, conn)) := by
  unfold lxcOpen uriScheme
  by_cases huid : uid = 0
  · subst huid
    by_cases hdrv : lxc_driver = none
    · simp [hdrv]
    · rcases uri with _ | ⟨⟨_ | scheme⟩⟩
      · simp [hdrv]
      · simp [hdrv]
      · by_cases hs : scheme = "lxc"
        · simp [hdrv, hs]
        · simp [hdrv, hs]
  · have h0 : ¬ 0 = uid := fun h => huid h.symm
    simp [huid, h0]

theorem lxcListDomains_loop_spec (nids : Int) (vms : List lxc_vm_t) (ids : Nat → Int)
    (k : Nat) :
    (((lxcListDomains_loop nids vms ids k).2 : Int) =
        max (k : Int) (min nids ((k : Int) + (activeIds vms).length))) ∧
    (∀ j : Nat, k + j < (lxcListDomains_loop nids vms ids k).2 →
        (activeIds vms)[j]? = some ((lxcListDomains_loop nids vms ids k).1 (k + j))) ∧
    (∀ i : Nat, (i < k ∨ (lxcListDomains_loop nids vms ids k).2 ≤ i) →
        (lxcListDomains_loop nids vms ids k).1 i = ids i) := by
  induction vms generalizing ids k with
  | nil =>
    simp only [lxcListDomains_loop, activeIds, List.filter_nil, List.map_nil, List.length_nil]
    refine ⟨by omega, ?_, ?_⟩
    · intro j hj; omega
    · intro i _; trivial
  | cons vm rest ih =>
    unfold lxcListDomains_loop
    by_cases hlt : (k : Int) < nids
    · by_cases hact : lxcIsActiveVM vm = true
      · simp only [hlt, hact, if_true]
        obtain ⟨h1, h2, h3⟩ := ih (fun i => if i = k then vm.vmdef.id else ids i) (k + 1)
        have hlen : (activeIds (vm :: rest)).length = (activeIds rest).length + 1 := by
          simp [activeIds, hact]
        refine ⟨?_, ?_, ?_⟩
        · rw [h1, hlen]; push_cast; omega
        · intro j hj
          cases j with
          | zero =>
            have := h3 k (Or.inl (Nat.lt_succ_self k))
            simp [activeIds, hact, this]
          | succ j =>
            have := h2 j (by omega)
            have e : k + (j + 1) = k + 1 + j := by omega
            rw [e, ← this]
            simp [activeIds, hact]
        · intro i hi
          have hk : (k : Int) + 1 ≤ (lxcListDomains_loop nids rest
              (fun i => if i = k then vm.vmdef.id else ids i) (k + 1)).2 := by
            rw [h1]; push_cast; omega
          have hk2 : k + 1 ≤ (lxcListDomains_loop nids rest
              (fun i => if i = k then vm.vmdef.id else ids i) (k + 1)).2 := by
            exact_mod_cast hk
          have hne : i ≠ k := by omega
          rw [h3 i (by omega)]
          simp [hne]
      · simp only [hlt, hact, if_true]
        obtain ⟨h1, h2, h3⟩ := ih ids k
        have hlen : activeIds (vm :: rest) = activeIds rest := by
          simp [activeIds, hact]
        rw [hlen]
        exact ⟨h1, h2, h3⟩
    · simp only [hlt, if_false]
      refine ⟨by omega, ?_, ?_⟩
      · intro j hj; omega
      · intro i _; trivial

/-- C2: for every registry and every limit n, lxcListDomains returns
min(max(n,0), number of active records), writes into ids[0..result) the runtime
ids of the first `result` active records in registry order, and leaves the rest
of the buffer alone; limit 0 gives 0 entries. -/
theorem lxcListDomains_spec (driver : lxc_driver_t) (ids : Nat → Int) (nids : Int) :
    (lxcListDomains driver ids nids).2 =
        min (max nids 0) ((driver.vms.filter lxcIsActiveVM).length : Int) ∧
    (∀ i : Nat, (i : Int) < (lxcListDomains driver ids nids).2 →
        ((driver.vms.filter lxcIsActiveVM).map (fun vm => vm.vmdef.id))[i]? =
          some ((lxcListDomains driver ids nids).1 i)) ∧
    (∀ i : Nat, (lxcListDomains driver ids nids).2 ≤ (i : Int) →
        (lxcListDomains driver ids nids).1 i = ids i) ∧
    (lxcListDomains driver ids 0).2 = 0 := by
  obtain ⟨h1, h2, h3⟩ := lxcListDomains_loop_spec nids driver.vms ids 0
  obtain ⟨h0, _, _⟩ := lxcListDomains_loop_spec 0 driver.vms ids 0
  have hlen : (activeIds driver.vms).length = (driver.vms.filter lxcIsActiveVM).length := by
    simp [activeIds]
  simp only [lxcListDomains]
  refine ⟨?_, ?_, ?_, ?_⟩
  · rw [h1, hlen]; push_cast; omega
  · intro i hi
    have := h2 i (by simpa using (by exact_mod_cast hi))
    simpa [activeIds] using this
  · intro i hi
    exact h3 i (Or.inr (by exact_mod_cast hi))
  · rw [h0]; push_cast; omega

/-- C3 (as stated, refuted): undefine on the running container `c2` reports an
error of kind internal-error, not invalid-domain. -/
theorem lxcDomainUndefine_active_error_kind_not_invalid_domain :
    lxcFindVMByUUID (exampleDriver [exampleVM "c2" 42 .VIR_DOMAIN_RUNNING] 1 0 1) [1] =
        some (0, exampleVM "c2" 42 .VIR_DOMAIN_RUNNING) ∧
    lxcIsActiveVM (exampleVM "c2" 42 .VIR_DOMAIN_RUNNING) = true ∧
    ¬ (errorKinds (lxcDomainUndefine failingOps
          (exampleDriver [exampleVM "c2" 42 .VIR_DOMAIN_RUNNING] 1 0 1) ⟨"c2", [1], 42⟩ []).2.2 =
        [.VIR_ERR_INVALID_DOMAIN]) := by
  refine ⟨by rfl, by rfl, ?_⟩
  simp [lxcDomainUndefine, lxcFindVMByUUID, findVM, exampleDriver, exampleVM, exampleDef,
    lxcIsActiveVM, errorKinds]

/-- C3 (amended): for every driver state and every active record found by the
handle's uuid, lxcDomainUndefine returns -1 and reports one error, of kind
internal-error ("cannot delete active domain"); the driver state (records,
their fields, both counters) is unchanged and nothing else is done: no config
deletion, no pid-file deletion, no record removal. -/
theorem lxcDomainUndefine_active_rejected (ops : lxc_conf_ops) (driver : lxc_driver_t)
    (dom : virDomain) (trace : List Event) (i : Nat) (vm : lxc_vm_t)
    (hfind : lxcFindVMByUUID driver dom.uuid = some (i, vm))
    (hact : lxcIsActiveVM vm = true) :
    lxcDomainUndefine ops driver dom trace =
      (-1, driver,
        Event.lxcError .VIR_ERR_INTERNAL_ERROR "cannot delete active domain" :: trace) := by
  simp [lxcDomainUndefine, hfind, hact]

/-- Witness for C3: undefine on the running container `c2`. -/
theorem lxcDomainUndefine_active_rejected_witness :
    lxcDomainUndefine failingOps
        (exampleDriver [exampleVM "c2" 42 .VIR_DOMAIN_RUNNING] 1 0 1) ⟨"c2", [1], 42⟩ [] =
      (-1, exampleDriver [exampleVM "c2" 42 .VIR_DOMAIN_RUNNING] 1 0 1,
        [Event.lxcError .VIR_ERR_INTERNAL_ERROR "cannot delete active domain"]) :=
  lxcDomainUndefine_active_rejected failingOps
    (exampleDriver [exampleVM "c2" 42 .VIR_DOMAIN_RUNNING] 1 0 1) ⟨"c2", [1], 42⟩ [] 0
    (exampleVM "c2" 42 .VIR_DOMAIN_RUNNING) (by rfl) (by rfl)

/-- C4: for every parsed definition with at least one network interface, when
the driver's have_netns flag is false lxcDomainDefine returns no domain and
reports no-support; it stops before registering anything: after the parse the
only actions are the error report and the release of the definition, neither
lxcAssignVMDef nor lxcSaveVMDef is called, and the driver state is unchanged. -/
theorem lxcDomainDefine_no_netns (ops : lxc_conf_ops) (driver : lxc_driver_t)
    (xml : String) (trace : List Event) (vmdef : lxc_vm_def_t)
    (hparse : ops.lxcParseVMDef xml = some vmdef)
    (hnets : vmdef.nets ≠ [])
    (hns : driver.have_netns = 0) :
    lxcDomainDefine ops driver xml trace =
      (none, driver,
        Event.call "lxcFreeVMDef" ::
          Event.lxcError .VIR_ERR_NO_SUPPORT "System lacks NETNS support" ::
            Event.call "lxcParseVMDef" :: trace) ∧
    (lxcDomainDefine ops driver xml trace).2.2.countP Event.isRegistration =
      trace.countP Event.isRegistration := by
  have h : lxcDomainDefine ops driver xml trace =
      (none, driver,
        Event.call "lxcFreeVMDef" ::
          Event.lxcError .VIR_ERR_NO_SUPPORT "System lacks NETNS support" ::
            Event.call "lxcParseVMDef" :: trace) := by
    simp [lxcDomainDefine, hparse, hnets, hns]
  refine ⟨h, ?_⟩
  rw [h]
  simp [List.countP_cons, Event.isRegistration]

/-- Witness for C4: a definition with one bridged interface on a host without
network-namespace support. -/
theorem lxcDomainDefine_no_netns_witness :
    lxcDomainDefine bridgedOps (exampleDriver [] 0 0 0) "<domain/>" [] =
      (none, exampleDriver [] 0 0 0,
        [Event.call "lxcFreeVMDef",
          Event.lxcError .VIR_ERR_NO_SUPPORT "System lacks NETNS support",
          Event.call "lxcParseVMDef"]) :=
  (lxcDomainDefine_no_netns bridgedOps (exampleDriver [] 0 0 0) "<domain/>" []
    { exampleDef "c3" (-1) with nets := [⟨.LXC_NET_BRIDGE, some "br0", none, none⟩] }
    (by rfl) (by simp) (by rfl)).1

/-- C5 (as stated, refuted): with one interface and have_netns false, a start
attempt whose container console cannot be opened fails with an error of kind
internal-error; no error of kind no-support is reported. -/
theorem lxcVmStart_no_netns_pty_failure_is_internal_error :
    exampleNetCtx.vm.vmdef.nets ≠ [] ∧ exampleNetCtx.driver.have_netns = 0 ∧
    (lxcVmStart { okStart with ctty := { okCtty with posix_openpt := -1 } } exampleNetCtx).map
        (fun r => (r.1, errorKinds r.2.trace)) =
      some (-1, [.VIR_ERR_INTERNAL_ERROR]) := by
  refine ⟨by decide, by decide, by rfl⟩

/-- C5 (amended): for every record whose definition has at least one network
interface, when have_netns is false (i) lxcSetupInterfaces returns -1 and its
only action is the no-support error report, so it creates no veth pair;
(ii) a start attempt returns unless the process is the forked forwarder child,
and every start attempt that returns, through lxcVmStart or through
lxcDomainStart, returns -1 and performs no veth creation, no socketpair and no
clone; (iii) when the PTY setup steps do not return a negative value and fork
returns a child pid, the start attempt returns and the error it reports is of
kind no-support. -/
theorem lxcVmStart_no_netns (env : StartEnv) (c : Ctx)
    (hnets : c.vm.vmdef.nets ≠ []) (hns : c.driver.have_netns = 0) :
    lxcSetupInterfaces env.ifs c =
        (-1, c.err .VIR_ERR_NO_SUPPORT "System lacks NETNS support") ∧
    (c.vm.vmdef.tty ≠ none → env.fork ≠ 0 → ∃ r, lxcVmStart env c = some r) ∧
    (∀ r, lxcVmStart env c = some r →
        r.1 = -1 ∧ r.2.trace.countP Event.isLaunch = c.trace.countP Event.isLaunch) ∧
    (∀ dom i, lxcFindVMByName c.driver dom.name = some (i, c.vm) →
      ∀ r, lxcDomainStart env c.toWorld dom = some r →
        r.1 = -1 ∧ r.2.trace.countP Event.isLaunch = c.trace.countP Event.isLaunch) ∧
    (∀ r1 c1, lxcSetupTtyTunnel env.tunnel c = some (r1, c1) → 0 ≤ r1 →
        0 ≤ (lxcSetupContainerTty env.ctty c1).1 → 0 < env.fork →
        ∃ r, lxcVmStart env c = some r ∧ r.1 = -1 ∧
          (errorKinds r.2.trace).head? = some .VIR_ERR_NO_SUPPORT) := by
  have hstart : ∀ r, lxcVmStart env c = some r →
      r.1 = -1 ∧ r.2.trace.countP Event.isLaunch = c.trace.countP Event.isLaunch := by
    intro r hr
    simp only [lxcVmStart, Option.map_eq_some'] at hr
    obtain ⟨rb, hb, rfl⟩ := hr
    rw [countP_cleanup _ (fun _ => rfl)]
    rcases lxcVmStart_body_pty env c rb hb with ⟨h1, _, he⟩ | ⟨c4, _, hf, he, hr⟩
    · exact ⟨h1, he.countP_eq _ isPtyPhase_not_isLaunch⟩
    · simp only [Ctx.ptyFrame, Prod.mk.injEq] at hf
      have hg := lxcVmStart_net_guard env c4 (by rw [hf.2.2.2.2.1]; exact hnets)
        (by rw [hf.1]; exact hns)
      rw [hg] at hr
      subst hr
      refine ⟨rfl, ?_⟩
      simp only [Ctx.err, Ctx.emit, List.countP_cons, Event.isLaunch]
      simpa using he.countP_eq _ isPtyPhase_not_isLaunch
  refine ⟨lxcSetupInterfaces_guard env.ifs c hnets hns, ?_, hstart, ?_, ?_⟩
  · intro htty hfork
    obtain ⟨rb, hb⟩ := lxcVmStart_body_returns env c htty hfork
    exact ⟨lxcVmStart_cleanup rb, by simp [lxcVmStart, hb]⟩
  · intro dom i hfind r hr
    simp only [lxcDomainStart, hfind, Option.map_eq_some'] at hr
    obtain ⟨rs, hrs, rfl⟩ := hr
    exact hstart rs hrs
  · intro r1 c1 h1 hr1 h2 hfork
    obtain ⟨_, f1⟩ := lxcSetupTtyTunnel_frame env.tunnel c (r1, c1) h1
    obtain ⟨_, f2⟩ := lxcSetupContainerTty_frame env.ctty c1
    simp only [Ctx.ptyFrame, Prod.mk.injEq] at f1 f2
    have hr1' : ¬ r1 < 0 := by omega
    have h2' : ¬ (lxcSetupContainerTty env.ctty c1).1 < 0 := by omega
    have hf1 : ¬ env.fork < 0 := by omega
    have hf2 : ¬ env.fork = 0 := by omega
    simp only [lxcVmStart, lxcVmStart_body, h1, hr1', h2', hf1, hf2, if_false,
      Option.map_some', Option.some.injEq, exists_eq_left']
    rw [lxcVmStart_net_guard]
    · simp [lxcVmStart_cleanup, Ctx.err, Ctx.emit, errorKinds]
    · simp only [Ctx.emit]
      rw [f2.2.2.2.2.1, f1.2.2.2.2.1]
      exact hnets
    · simp only [Ctx.emit]
      rw [f2.1, f1.1]
      exact hns

/-- Witness for C5: the record `c1` with one bridged interface on a host
without network-namespace support, every PTY step and the fork succeeding. -/
theorem lxcVmStart_no_netns_witness :
    exampleNetCtx.vm.vmdef.nets ≠ [] ∧ exampleNetCtx.driver.have_netns = 0 ∧
    ∃ r, lxcVmStart okStart exampleNetCtx = some r ∧ r.1 = -1 ∧
      (errorKinds r.2.trace).head? = some .VIR_ERR_NO_SUPPORT :=
  ⟨by decide, by decide,
    (lxcVmStart_no_netns okStart exampleNetCtx (by decide) (by decide)).2.2.2.2 0
      { exampleNetCtx with vm := { exampleNetCtx.vm with parentTty := -1 } }
      (by rfl) (by decide) (by decide) (by decide)⟩

/-- C6 (code at the failing input): for the record `c1`, when every step up to
the interface setup succeeds and `socketpair` fails, lxcVmStart returns 0 after
reporting an internal error, although the record is still shutoff with runtime
id -1, nothing was cloned and both counters are unchanged. -/
theorem lxcVmStart_returns_0_when_socketpair_fails :
    (lxcVmStart { okStart with socketpair := -1 } exampleCtx).map
        (fun r => (r.1, r.2.vm.state, r.2.vm.vmdef.id, r.2.driver.nactivevms,
          r.2.driver.ninactivevms, errorKinds r.2.trace,
          r.2.trace.countP Event.isCloneOk)) =
      some (0, .VIR_DOMAIN_SHUTOFF, -1, exampleCtx.driver.nactivevms,
        exampleCtx.driver.ninactivevms, [.VIR_ERR_INTERNAL_ERROR], 0) := by
  rfl

/-- C7 (code at the failing input): for the record `c1`, when clone returns pid
777 and sending the CONTINUE token fails, lxcVmStart returns -1 and leaves the
record with runtime id 777, hence active for lxcIsActiveVM, without having
issued any kill; the same happens for a record with one interface when moving
the interface into the namespace of the cloned child fails. -/
theorem lxcVmStart_no_compensation_after_clone :
    (lxcVmStart { okStart with safewrite := 0 } exampleCtx).map
        (fun r => (r.1, r.2.vm.vmdef.id, lxcIsActiveVM r.2.vm, r.2.vm.state,
          r.2.trace.countP Event.isKill, r.2.trace.countP Event.isCloneOk)) =
      some (-1, 777, true, .VIR_DOMAIN_SHUTOFF, 0, 1) ∧
    (lxcVmStart { okStart with moveInterfaceToNetNs := fun _ => 1 }
        { exampleNetCtx with
          driver := exampleDriver [exampleVM "c1" (-1) .VIR_DOMAIN_SHUTOFF] 0 1 1 }).map
        (fun r => (r.1, r.2.vm.vmdef.id, lxcIsActiveVM r.2.vm, r.2.vm.state,
          r.2.trace.countP Event.isKill, r.2.trace.countP Event.isCloneOk)) =
      some (-1, 777, true, .VIR_DOMAIN_SHUTOFF, 0, 1) := by
  refine ⟨by rfl, by rfl⟩

/-- How far the missing compensation reaches: on every failure of lxcVmStart
after clone has succeeded in this attempt, whatever the record and the outcomes
of the calls, the return value is -1, the runtime id is left at the pid returned
by clone, the lifecycle state and the driver structure (both counters included)
are as on entry, no kill is issued, and the two stored handshake descriptors
are -1. -/
theorem lxcVmStart_failure_after_clone (env : StartEnv) (c : Ctx) (r : Int × Ctx)
    (h : lxcVmStart env c = some r)
    (hfail : r.1 ≠ 0)
    (hclone : r.2.trace.countP Event.isCloneOk ≠ c.trace.countP Event.isCloneOk) :
    r.1 = -1 ∧ 0 ≤ env.clone ∧ r.2.vm.vmdef.id = env.clone ∧
    r.2.vm.state = c.vm.state ∧ r.2.driver = c.driver ∧
    r.2.trace.countP Event.isKill = c.trace.countP Event.isKill ∧
    r.2.vm.sockpair0 = -1 ∧ r.2.vm.sockpair1 = -1 := by
  simp only [lxcVmStart, Option.map_eq_some'] at h
  obtain ⟨rb, hb, rfl⟩ := h
  rw [countP_cleanup _ (fun _ => rfl)] at hclone
  rw [countP_cleanup _ (fun _ => rfl)]
  have hfail' : rb.1 ≠ 0 := hfail
  suffices hs : rb.1 = -1 ∧ 0 ≤ env.clone ∧ rb.2.vm.vmdef.id = env.clone ∧
      rb.2.vm.state = c.vm.state ∧ rb.2.driver = c.driver ∧
      rb.2.trace.countP Event.isKill = c.trace.countP Event.isKill by
    obtain ⟨h1, h2, h3, h4, h5, h6⟩ := hs
    exact ⟨h1, h2, h3, h4, h5, h6, rfl, rfl⟩
  rcases lxcVmStart_body_cases env c rb hb with ⟨_, _, he⟩ | ⟨c5, hf, he, rfl⟩
  · exact absurd (he.countP_eq _ isPrelaunch_not_isCloneOk) hclone
  · have hk5 := he.countP_eq Event.isKill isPrelaunch_not_isKill
    have hc5 := he.countP_eq Event.isCloneOk isPrelaunch_not_isCloneOk
    simp only [Ctx.launchFrame, Prod.mk.injEq] at hf
    obtain ⟨hdrv, hst, _, _, _⟩ := hf
    rcases lxcVmStart_launch_cases env 0 c5 with
      ⟨_, _, _, _, ht⟩ | ⟨_, c6, hvm6, hd6, ht6, hl⟩
    · rw [ht] at hclone
      simp [List.countP_cons, Event.isCloneOk, hc5] at hclone
    · rw [hl] at hclone hfail' ⊢
      rcases lxcVmStart_release_cases env c6
        with ⟨_, _, _, ht⟩ | ⟨_, hneg, _, _, ht⟩ | ⟨h1, hpos, hvm, hd, ht⟩ | ⟨h0, _⟩
      · rw [ht, ht6] at hclone
        simp [List.countP_cons, Event.isCloneOk, hc5] at hclone
      · rw [ht, ht6] at hclone
        have : ¬ 0 ≤ env.clone := by omega
        simp [List.countP_cons, Event.isCloneOk, hc5, this] at hclone
      · refine ⟨h1, hpos, ?_, ?_, ?_, ?_⟩
        · rw [hvm]
        · rw [hvm, hvm6]; exact hst
        · rw [hd, hd6]; exact hdrv
        · rw [ht.countP_eq _ isRelease_not_isKill, ht6]
          simp [List.countP_cons, Event.isKill, hk5]
      · exact absurd h0 hfail'

/-- The record `c1`, clone returning pid 777 and the CONTINUE token not being
sent, as an instance of the preceding theorem. -/
theorem lxcVmStart_failure_after_clone_witness :
    ∃ r, lxcVmStart { okStart with safewrite := 0 } exampleCtx = some r ∧
      r.1 = -1 ∧ r.2.vm.vmdef.id = 777 ∧ r.2.vm.state = .VIR_DOMAIN_SHUTOFF ∧
      r.2.trace.countP Event.isKill = 0 :=
  ⟨_, rfl,
    (lxcVmStart_failure_after_clone { okStart with safewrite := 0 } exampleCtx _ rfl
      (by decide) (by decide)).1,
    (lxcVmStart_failure_after_clone { okStart with safewrite := 0 } exampleCtx _ rfl
      (by decide) (by decide)).2.2.1,
    (lxcVmStart_failure_after_clone { okStart with safewrite := 0 } exampleCtx _ rfl
      (by decide) (by decide)).2.2.2.1,
    (lxcVmStart_failure_after_clone { okStart with safewrite := 0 } exampleCtx _ rfl
      (by decide) (by decide)).2.2.2.2.2.1⟩

/-- C8: lxcVmStart returns unless the process is the forked forwarder child (or
the tty string is NULL); on every return, whichever step failed or none, both
stored handshake descriptors are -1 and the last two actions are the closing of
the two stored descriptors; when socketpair succeeded in this attempt these are
the descriptors it returned, so that neither of them is open in the parent on
return. -/
theorem lxcVmStart_closes_handshake_pair (env : StartEnv) (c : Ctx) :
    (c.vm.vmdef.tty ≠ none → env.fork ≠ 0 → ∃ r, lxcVmStart env c = some r) ∧
    (∀ r, lxcVmStart env c = some r →
      r.2.vm.sockpair0 = -1 ∧ r.2.vm.sockpair1 = -1 ∧
      (∃ rb, lxcVmStart_body env c = some rb ∧ r.1 = rb.1 ∧
        r.2.trace = .close rb.2.vm.sockpair1 :: .close rb.2.vm.sockpair0 :: rb.2.trace) ∧
      (r.2.trace.countP Event.isSocketpairOk ≠ c.trace.countP Event.isSocketpairOk →
        (∃ t, r.2.trace =
          .close env.socketpair_fds.2 :: .close env.socketpair_fds.1 :: t) ∧
        env.socketpair_fds.1 ∉ openFds r.2.trace ∧
        env.socketpair_fds.2 ∉ openFds r.2.trace)) := by
  constructor
  · intro htty hfork
    obtain ⟨rb, hb⟩ := lxcVmStart_body_returns env c htty hfork
    exact ⟨lxcVmStart_cleanup rb, by simp [lxcVmStart, hb]⟩
  · intro r hr
    simp only [lxcVmStart, Option.map_eq_some'] at hr
    obtain ⟨rb, hb, rfl⟩ := hr
    refine ⟨rfl, rfl, ⟨rb, hb, rfl, rfl⟩, ?_⟩
    intro hsock
    rw [countP_cleanup _ (fun _ => rfl)] at hsock
    obtain ⟨h0, h1⟩ := lxcVmStart_body_sockets env c rb hb hsock
    have ht : (lxcVmStart_cleanup rb).2.trace =
        .close env.socketpair_fds.2 :: .close env.socketpair_fds.1 :: rb.2.trace := by
      simp [lxcVmStart_cleanup, Ctx.emit, h0, h1]
    refine ⟨⟨_, ht⟩, ?_, ?_⟩
    · rw [ht]
      simp [openFds]
    · rw [ht]
      simp [openFds]

/-- Witness for C8: a fully successful start of the record `c1`, with handshake
descriptors 7 and 8. -/
theorem lxcVmStart_closes_handshake_pair_witness :
    ∃ r, lxcVmStart okStart exampleCtx = some r ∧
      r.2.vm.sockpair0 = -1 ∧ r.2.vm.sockpair1 = -1 ∧
      (7 : Int) ∉ openFds r.2.trace ∧ (8 : Int) ∉ openFds r.2.trace :=
  ⟨_, rfl,
    ((lxcVmStart_closes_handshake_pair okStart exampleCtx).2 _ rfl).1,
    ((lxcVmStart_closes_handshake_pair okStart exampleCtx).2 _ rfl).2.1,
    (((lxcVmStart_closes_handshake_pair okStart exampleCtx).2 _ rfl).2.2.2 (by decide)).2.1,
    (((lxcVmStart_closes_handshake_pair okStart exampleCtx).2 _ rfl).2.2.2 (by decide)).2.2⟩

/-- C9 (as stated, refuted): when the kill of the running container `c2` fails
with EPERM, lxcDomainDestroy returns -1 and the record is still active: runtime
id 777, state running. -/
theorem lxcDomainDestroy_kill_eperm_leaves_active :
    lxcFindVMByID exampleRunning.driver 777 =
        some (0, { exampleVM "c2" 777 .VIR_DOMAIN_RUNNING with pid := 500 }) ∧
    (lxcDomainDestroy ⟨⟨-1, EPERM⟩, goneCleanup⟩ exampleRunning ⟨"c2", [1], 777⟩).map
        (fun r => (r.1, r.2.driver.vms.map
          (fun vm => (vm.vmdef.id, vm.state, lxcIsActiveVM vm)))) =
      some (-1, [(777, .VIR_DOMAIN_RUNNING, true)]) := by
  refine ⟨by rfl, by rfl⟩

/-- C9 (amended): for every record x found by the handle's id, (i) when the
kill succeeds or fails with ESRCH, lxcDomainDestroy returns as soon as its
waitpid loops end, and after it returns, with any return value and for any
outcome of waitpid, of the veth deletions and of the forwarder's kill, x is
inactive: its runtime id is -1 and its lifecycle state is shutoff; (ii) when the
kill fails with any other error, lxcDomainDestroy returns -1 and leaves the
driver structure, x included, unchanged. -/
theorem lxcDomainDestroy_post (env : DestroyEnv) (w : World) (dom : virDomain) (i : Nat)
    (vm : lxc_vm_t) (hfind : lxcFindVMByID w.driver dom.id = some (i, vm)) :
    (¬ (0 > env.kill.rc ∧ ESRCH ≠ env.kill.errno) →
      (waitEnds env.cleanup.waitContainer = true → waitEnds env.cleanup.waitTty = true →
        ∃ r, lxcDomainDestroy env w dom = some r) ∧
      (∀ r, lxcDomainDestroy env w dom = some r →
        ∃ vm', r.2.driver.vms[i]? = some vm' ∧ vm'.vmdef.id = -1 ∧
          vm'.state = .VIR_DOMAIN_SHUTOFF ∧ lxcIsActiveVM vm' = false)) ∧
    ((0 > env.kill.rc ∧ ESRCH ≠ env.kill.errno) →
      ∃ w', lxcDomainDestroy env w dom = some (-1, w') ∧ w'.driver = w.driver) := by
  have hi := (findVM_some _ _ _ _ hfind).1
  constructor
  · intro hk
    constructor
    · intro hc ht
      obtain ⟨rc, hrc⟩ := lxcVMCleanup_returns env.cleanup
        { w.emit (.kill vm.vmdef.id SIGKILL) with
          vm := { vm with state := .VIR_DOMAIN_SHUTDOWN } } hc ht
      exact ⟨(rc.1, rc.2.writeBack i), by simp [lxcDomainDestroy, hfind, hk, hrc]⟩
    · intro r hr
      simp only [lxcDomainDestroy, hfind, hk, if_false, Option.map_eq_some'] at hr
      obtain ⟨rc, hrc, rfl⟩ := hr
      obtain ⟨_, hst, hid, _, hvms, _⟩ := lxcVMCleanup_post _ _ _ hrc
      refine ⟨rc.2.vm, writeBack_getElem w i vm rc.2 hi hvms, hid, hst, ?_⟩
      simp [lxcIsActiveVM, hid]
  · intro hk
    exact ⟨(w.emit (.kill vm.vmdef.id SIGKILL)).err .VIR_ERR_INTERNAL_ERROR
      "sending SIGKILL failed: %s", by simp [lxcDomainDestroy, hfind, hk], rfl⟩

/-- Witness for C9: destroying the running container `c2` whose processes are
already gone. -/
theorem lxcDomainDestroy_post_witness :
    (∃ r, lxcDomainDestroy ⟨⟨-1, ESRCH⟩, goneCleanup⟩ exampleRunning ⟨"c2", [1], 777⟩ =
        some r) ∧
    (∀ r, lxcDomainDestroy ⟨⟨-1, ESRCH⟩, goneCleanup⟩ exampleRunning ⟨"c2", [1], 777⟩ =
        some r →
      ∃ vm', r.2.driver.vms[0]? = some vm' ∧ vm'.vmdef.id = -1 ∧
        vm'.state = .VIR_DOMAIN_SHUTOFF ∧ lxcIsActiveVM vm' = false) :=
  ⟨(((lxcDomainDestroy_post ⟨⟨-1, ESRCH⟩, goneCleanup⟩ exampleRunning ⟨"c2", [1], 777⟩ 0
      { exampleVM "c2" 777 .VIR_DOMAIN_RUNNING with pid := 500 } (by rfl)).1
      (by decide)).1 (by decide) (by decide)),
    ((lxcDomainDestroy_post ⟨⟨-1, ESRCH⟩, goneCleanup⟩ exampleRunning ⟨"c2", [1], 777⟩ 0
      { exampleVM "c2" 777 .VIR_DOMAIN_RUNNING with pid := 500 } (by rfl)).1
      (by decide)).2⟩

/-- C10: for every record found by the handle's id whose container root process
is already gone, so that SIGKILL fails with ESRCH and waitpid on it reports
ECHILD (after any number of interrupted calls), lxcDomainDestroy succeeds: it
reports no error for the failed kill, still runs the cleanup (the record becomes
shutoff with runtime id -1 and forwarder pid -1, the counters are updated) and
returns 0. -/
theorem lxcDomainDestroy_dead_container (env : DestroyEnv) (w : World) (dom : virDomain)
    (i : Nat) (vm : lxc_vm_t) (n : Nat) (later : List WaitOutcome)
    (hfind : lxcFindVMByID w.driver dom.id = some (i, vm))
    (hkill : env.kill.rc < 0 ∧ env.kill.errno = ESRCH)
    (hgone : env.cleanup.waitContainer =
      List.replicate n ⟨-1, EINTR, none⟩ ++ ⟨-1, ECHILD, none⟩ :: later)
    (htty : waitEnds env.cleanup.waitTty = true) :
    ∃ r, lxcDomainDestroy env w dom = some r ∧ r.1 = 0 ∧
      r.2.trace.countP Event.isKillFailure = w.trace.countP Event.isKillFailure ∧
      (∃ rc, lxcVMCleanup env.cleanup
          { w.emit (.kill vm.vmdef.id SIGKILL) with
            vm := { vm with state := .VIR_DOMAIN_SHUTDOWN } } = some rc ∧
        r = (rc.1, rc.2.writeBack i)) ∧
      (∃ vm', r.2.driver.vms[i]? = some vm' ∧ vm'.vmdef.id = -1 ∧
        vm'.state = .VIR_DOMAIN_SHUTOFF ∧ vm'.pid = -1) ∧
      r.2.driver.nactivevms = w.driver.nactivevms - 1 ∧
      r.2.driver.ninactivevms = w.driver.ninactivevms + 1 := by
  have hi := (findVM_some _ _ _ _ hfind).1
  have hk : ¬ (0 > env.kill.rc ∧ ESRCH ≠ env.kill.errno) := by
    intro h
    exact h.2 hkill.2.symm
  have hc : waitEnds env.cleanup.waitContainer = true := by
    rw [hgone]
    exact waitEnds_gone n later
  obtain ⟨rc, hrc⟩ := lxcVMCleanup_returns env.cleanup
    { w.emit (.kill vm.vmdef.id SIGKILL) with
      vm := { vm with state := .VIR_DOMAIN_SHUTDOWN } } hc htty
  obtain ⟨he, hst, hid, hpid, hvms, hna, hni⟩ := lxcVMCleanup_post _ _ _ hrc
  have h0 := lxcVMCleanup_gone _ _ n later hgone _ hrc
  refine ⟨(rc.1, rc.2.writeBack i), by simp [lxcDomainDestroy, hfind, hk, hrc], h0, ?_,
    ⟨rc, hrc, rfl⟩, ⟨rc.2.vm, writeBack_getElem w i vm rc.2 hi hvms, hid, hst, hpid⟩,
    hna, hni⟩
  have := he.countP_eq Event.isKillFailure isNotKillFailure_not_isKillFailure
  simpa [Ctx.writeBack, World.emit, List.countP_cons, Event.isKillFailure] using this

/-- Witness for C10: destroying the running container `c2` whose processes are
already gone. -/
theorem lxcDomainDestroy_dead_container_witness :
    ∃ r, lxcDomainDestroy ⟨⟨-1, ESRCH⟩, goneCleanup⟩ exampleRunning ⟨"c2", [1], 777⟩ =
        some r ∧ r.1 = 0 ∧ r.2.trace.countP Event.isKillFailure = 0 :=
  (lxcDomainDestroy_dead_container ⟨⟨-1, ESRCH⟩, goneCleanup⟩ exampleRunning
    ⟨"c2", [1], 777⟩ 0 { exampleVM "c2" 777 .VIR_DOMAIN_RUNNING with pid := 500 } 0 []
    (by rfl) (by decide) (by rfl) (by decide)).imp
    (fun _ h => ⟨h.1, h.2.1, h.2.2.1⟩)

/-- C11 (code at the failing input): when the container root of `c2` has exited
with exit code 3, lxcVMCleanup returns 3, and so do lxcDomainDestroy and
lxcSigHandler, although their doc comments promise 0 or -1. -/
theorem lxcVMCleanup_returns_exit_status :
    (lxcVMCleanup exit3Cleanup
        { exampleRunning with
          vm := { exampleVM "c2" 777 .VIR_DOMAIN_RUNNING with pid := 500 } }).map
        (fun r => r.1) = some 3 ∧
    (lxcDomainDestroy ⟨⟨0, 0⟩, exit3Cleanup⟩ exampleRunning ⟨"c2", [1], 777⟩).map
        (fun r => r.1) = some 3 ∧
    (lxcSigHandler exit3Cleanup exampleRunning ⟨SIGCHLD, 777⟩).map (fun r => r.1) = some 3 := by
  refine ⟨by rfl, by rfl, by rfl⟩

/-- The record as the `kill_tty:` part of `lxcVMCleanup` leaves it. -/
theorem lxcVMCleanup_kill_tty_vm (env : CleanupEnv) (rc st : Int) (c : Ctx)
    (r : Int × Ctx) (h : lxcVMCleanup_kill_tty env rc st c = some r) :
    r.2.vm = { c.vm with state := .VIR_DOMAIN_SHUTOFF, pid := -1,
                         vmdef := { c.vm.vmdef with id := -1 } } := by
  unfold lxcVMCleanup_kill_tty at h
  dsimp only at h
  repeat' (split at h)
  all_goals
    simp only [Option.some.injEq, reduceCtorEq] at h
  all_goals
    subst h
    rfl

/-- The record as `lxcVMCleanup` leaves it: only the lifecycle state, the
forwarder pid and the runtime id are written. -/
theorem lxcVMCleanup_vm (env : CleanupEnv) (c : Ctx) (r : Int × Ctx)
    (h : lxcVMCleanup env c = some r) :
    r.2.vm = { c.vm with state := .VIR_DOMAIN_SHUTOFF, pid := -1,
                         vmdef := { c.vm.vmdef with id := -1 } } := by
  unfold lxcVMCleanup at h
  dsimp only at h
  split at h
  · simp at h
  · repeat' (split at h)
    all_goals
      rw [lxcVMCleanup_kill_tty_vm _ _ _ _ _ h]
      rfl

theorem writeBack_others (c : Ctx) (i j : Nat) (hij : j ≠ i) :
    (c.writeBack i).driver.vms[j]? = c.driver.vms[j]? := by
  simp only [Ctx.writeBack]
  rw [List.getElem?_set_ne (fun h => hij h.symm)]

theorem writeBack_length (c : Ctx) (i : Nat) :
    (c.writeBack i).driver.vms.length = c.driver.vms.length := by
  simp [Ctx.writeBack]

/-- C12: for every driver state in which the lookup of runtime id p finds a
record, handling a SIGCHLD whose sender pid is p returns as soon as the waitpid
loops end, and on return, regardless of the outcomes of veth deletion, waitpid
and kill, that record is inactive (state shutoff, runtime id -1, forwarder
pid -1), the active counter is decremented by exactly one, the inactive counter
is incremented by exactly one, and every other record is unchanged. -/
theorem lxcSigHandler_reaps (env : CleanupEnv) (w : World) (p : Int) (i : Nat)
    (vm : lxc_vm_t) (hfind : lxcFindVMByID w.driver p = some (i, vm)) :
    (waitEnds env.waitContainer = true → waitEnds env.waitTty = true →
      ∃ r, lxcSigHandler env w ⟨SIGCHLD, p⟩ = some r) ∧
    (∀ r, lxcSigHandler env w ⟨SIGCHLD, p⟩ = some r →
      r.2.driver.vms[i]? =
        some { vm with state := .VIR_DOMAIN_SHUTOFF, pid := -1,
                       vmdef := { vm.vmdef with id := -1 } } ∧
      r.2.driver.nactivevms = w.driver.nactivevms - 1 ∧
      r.2.driver.ninactivevms = w.driver.ninactivevms + 1 ∧
      r.2.driver.vms.length = w.driver.vms.length ∧
      ∀ j, j ≠ i → r.2.driver.vms[j]? = w.driver.vms[j]?) := by
  have hi := (findVM_some _ _ _ _ hfind).1
  constructor
  · intro hc ht
    obtain ⟨rc, hrc⟩ := lxcVMCleanup_returns env { w with vm := vm } hc ht
    exact ⟨(rc.1, rc.2.writeBack i), by simp [lxcSigHandler, hfind, hrc]⟩
  · intro r hr
    simp only [lxcSigHandler, hfind, if_true, Option.map_eq_some'] at hr
    obtain ⟨rc, hrc, rfl⟩ := hr
    obtain ⟨_, _, _, _, hvms, hna, hni⟩ := lxcVMCleanup_post _ _ _ hrc
    have hvm := lxcVMCleanup_vm _ _ _ hrc
    refine ⟨?_, hna, hni, ?_, ?_⟩
    · rw [writeBack_getElem w i vm rc.2 hi hvms, hvm]
    · rw [writeBack_length, hvms]
    · intro j hj
      rw [writeBack_others _ _ _ hj, hvms]

/-- Witness for C12: the container `c2` with runtime id 777 exits and SIGCHLD
with sender pid 777 is handled. -/
theorem lxcSigHandler_reaps_witness :
    (∃ r, lxcSigHandler goneCleanup exampleRunning ⟨SIGCHLD, 777⟩ = some r) ∧
    (∀ r, lxcSigHandler goneCleanup exampleRunning ⟨SIGCHLD, 777⟩ = some r →
      r.2.driver.vms[0]? =
        some { exampleVM "c2" 777 .VIR_DOMAIN_RUNNING with
               state := .VIR_DOMAIN_SHUTOFF, pid := -1,
               vmdef := { exampleDef "c2" 777 with id := -1 } } ∧
      r.2.driver.nactivevms = 0 ∧ r.2.driver.ninactivevms = 1) :=
  ⟨(lxcSigHandler_reaps goneCleanup exampleRunning 777 0
      { exampleVM "c2" 777 .VIR_DOMAIN_RUNNING with pid := 500 } (by rfl)).1
      (by decide) (by decide),
    fun r hr =>
      ⟨((lxcSigHandler_reaps goneCleanup exampleRunning 777 0
          { exampleVM "c2" 777 .VIR_DOMAIN_RUNNING with pid := 500 } (by rfl)).2 r hr).1,
        ((lxcSigHandler_reaps goneCleanup exampleRunning 777 0
          { exampleVM "c2" 777 .VIR_DOMAIN_RUNNING with pid := 500 } (by rfl)).2 r hr).2.1,
        ((lxcSigHandler_reaps goneCleanup exampleRunning 777 0
          { exampleVM "c2" 777 .VIR_DOMAIN_RUNNING with pid := 500 } (by rfl)).2 r hr).2.2.1⟩⟩

/-- C14 (as stated, refuted): after the running container `c2`, started with
one interface, has been destroyed, the record is inactive and its interface
still carries the veth names `veth0` and `veth1`. -/
theorem lxcDomainDestroy_leaves_veth_names :
    (lxcDomainDestroy ⟨⟨0, 0⟩, goneCleanup⟩ exampleVethRunning ⟨"c2", [1], 777⟩).map
        (fun r => r.2.driver.vms.map
          (fun vm => (lxcIsActiveVM vm,
            vm.vmdef.nets.map (fun net => (net.parentVeth, net.containerVeth))))) =
      some [(false, [(some "veth0", some "veth1")])] := by
  rfl

theorem waitpidRetry_vethDeletes (pid : Int) (script : List WaitOutcome) (st : Int)
    (t : List Event) (res : Int × Int × Int × List Event)
    (h : waitpidRetry pid script st t = some res) :
    vethDeletes res.2.2.2 = vethDeletes t := by
  induction script generalizing st t with
  | nil => simp [waitpidRetry] at h
  | cons o later ih =>
    unfold waitpidRetry at h
    dsimp only at h
    split at h
    · rw [ih _ _ h]
      rfl
    · simp only [Option.some.injEq] at h
      subst h
      rfl

theorem lxcCleanupInterfaces_loop_vethDeletes (vethDelete : Nat → Int) (i : Nat)
    (nets : List lxc_net_def_t) (t : List Event) :
    vethDeletes (lxcCleanupInterfaces_loop vethDelete i nets t) =
      hostSideDeletes nets ++ vethDeletes t := by
  induction nets generalizing i t with
  | nil => rfl
  | cons net rest ih =>
    unfold lxcCleanupInterfaces_loop
    dsimp only
    split
    · rw [ih]
      simp [hostSideDeletes, vethDeletes, Event.isVethDelete]
    · rw [ih]
      simp [hostSideDeletes, vethDeletes, Event.isVethDelete]

theorem lxcVMCleanup_kill_tty_vethDeletes (env : CleanupEnv) (rc st : Int) (c : Ctx)
    (r : Int × Ctx) (h : lxcVMCleanup_kill_tty env rc st c = some r) :
    vethDeletes r.2.trace = vethDeletes c.trace := by
  unfold lxcVMCleanup_kill_tty at h
  dsimp only at h
  split at h
  · simp only [Option.some.injEq] at h
    subst h
    rfl
  · split at h
    · simp only [Option.some.injEq] at h
      subst h
      rfl
    · split at h
      · simp at h
      · rename_i waitRc errno st2 t5 h2
        have e5 : vethDeletes t5 = vethDeletes c.trace :=
          waitpidRetry_vethDeletes _ _ _ _ _ h2
        split at h
        · simp only [Option.some.injEq] at h
          subst h
          exact e5
        · simp only [Option.some.injEq] at h
          subst h
          exact e5

/-- The `vethDelete` calls `lxcVMCleanup` adds to the trace are one per
interface specification of the record, on its stored host-side name, in list
order. -/
theorem lxcVMCleanup_vethDeletes (env : CleanupEnv) (c : Ctx) (r : Int × Ctx)
    (h : lxcVMCleanup env c = some r) :
    vethDeletes r.2.trace = hostSideDeletes c.vm.vmdef.nets ++ vethDeletes c.trace := by
  have e0 : vethDeletes (lxcCleanupInterfaces env.vethDelete c).2.trace =
      hostSideDeletes c.vm.vmdef.nets ++ vethDeletes c.trace :=
    lxcCleanupInterfaces_loop_vethDeletes env.vethDelete 0 c.vm.vmdef.nets c.trace
  unfold lxcVMCleanup at h
  dsimp only at h
  split at h
  · simp at h
  · rename_i waitRc errno childStatus t2 h1
    have e1 := (waitpidRetry_vethDeletes _ _ _ _ _ h1).trans e0
    dsimp only at e1
    split at h
    · rw [lxcVMCleanup_kill_tty_vethDeletes _ _ _ _ _ h]
      exact e1
    · split at h
      · rw [lxcVMCleanup_kill_tty_vethDeletes _ _ _ _ _ h]
        exact e1
      · rw [lxcVMCleanup_kill_tty_vethDeletes _ _ _ _ _ h]
        exact e1

/-- C14 (amended): vm_cleanup does not reset veth names.  lxcVMCleanup returns
when its waitpid loops end; whenever it returns, the record is inactive, its
definition's interface list, veth names included, is exactly as before, and the
vethDelete calls it has made are one per interface specification, on the stored
host-side name, in list order.  The same holds for the record and the trace
after lxcDomainDestroy has run the cleanup (the kill did not fail with an error
other than ESRCH) and after lxcSigHandler has; when lxcDomainDestroy returns
without cleanup, the interface list is unchanged as well. -/
theorem lxcVMCleanup_keeps_veth_names (env : DestroyEnv) (w : World) (dom : virDomain)
    (i : Nat) (vm : lxc_vm_t) (hfind : lxcFindVMByID w.driver dom.id = some (i, vm)) :
    (∀ c, waitEnds env.cleanup.waitContainer = true → waitEnds env.cleanup.waitTty = true →
      ∃ r, lxcVMCleanup env.cleanup c = some r) ∧
    (∀ c r, lxcVMCleanup env.cleanup c = some r →
      lxcIsActiveVM r.2.vm = false ∧ r.2.vm.vmdef.nets = c.vm.vmdef.nets ∧
      vethDeletes r.2.trace = hostSideDeletes c.vm.vmdef.nets ++ vethDeletes c.trace) ∧
    (∀ r, lxcDomainDestroy env w dom = some r →
      ∃ vm', r.2.driver.vms[i]? = some vm' ∧ vm'.vmdef.nets = vm.vmdef.nets ∧
        (¬ (0 > env.kill.rc ∧ ESRCH ≠ env.kill.errno) →
          lxcIsActiveVM vm' = false ∧
          vethDeletes r.2.trace = hostSideDeletes vm.vmdef.nets ++ vethDeletes w.trace)) ∧
    (∀ r, lxcSigHandler env.cleanup w ⟨SIGCHLD, dom.id⟩ = some r →
      ∃ vm', r.2.driver.vms[i]? = some vm' ∧ lxcIsActiveVM vm' = false ∧
        vm'.vmdef.nets = vm.vmdef.nets ∧
        vethDeletes r.2.trace = hostSideDeletes vm.vmdef.nets ++ vethDeletes w.trace) := by
  have hi := (findVM_some _ _ _ _ hfind).1
  refine ⟨?_, ?_, ?_, ?_⟩
  · intro c hc ht
    exact lxcVMCleanup_returns env.cleanup c hc ht
  · intro c r hr
    refine ⟨?_, ?_, lxcVMCleanup_vethDeletes _ _ _ hr⟩
    · rw [lxcVMCleanup_vm _ _ _ hr]
      rfl
    · rw [lxcVMCleanup_vm _ _ _ hr]
  · intro r hr
    by_cases hk : 0 > env.kill.rc ∧ ESRCH ≠ env.kill.errno
    · simp only [lxcDomainDestroy, hfind, if_pos hk, Option.some.injEq] at hr
      subst hr
      exact ⟨vm, hi, rfl, fun hn => absurd hk hn⟩
    · simp only [lxcDomainDestroy, hfind, if_neg hk, Option.map_eq_some'] at hr
      obtain ⟨rc, hrc, rfl⟩ := hr
      obtain ⟨_, _, _, _, hvms, _⟩ := lxcVMCleanup_post _ _ _ hrc
      refine ⟨rc.2.vm, writeBack_getElem w i vm rc.2 hi hvms, ?_, fun _ => ⟨?_, ?_⟩⟩
      · rw [lxcVMCleanup_vm _ _ _ hrc]
      · rw [lxcVMCleanup_vm _ _ _ hrc]
        rfl
      · exact lxcVMCleanup_vethDeletes _ _ _ hrc
  · intro r hr
    simp only [lxcSigHandler, hfind, if_true, Option.map_eq_some'] at hr
    obtain ⟨rc, hrc, rfl⟩ := hr
    obtain ⟨_, _, _, _, hvms, _⟩ := lxcVMCleanup_post _ _ _ hrc
    refine ⟨rc.2.vm, writeBack_getElem w i vm rc.2 hi hvms, ?_, ?_, ?_⟩
    · rw [lxcVMCleanup_vm _ _ _ hrc]
      rfl
    · rw [lxcVMCleanup_vm _ _ _ hrc]
    · exact lxcVMCleanup_vethDeletes _ _ _ hrc

/-- Witness for C14: the running container `c2` with the veth pair
`veth0`/`veth1` is destroyed; the cleanup has called vethDelete on `veth0` and
the record, now inactive, still carries both names. -/
theorem lxcVMCleanup_keeps_veth_names_witness :
    (∃ r, lxcDomainDestroy ⟨⟨0, 0⟩, goneCleanup⟩ exampleVethRunning ⟨"c2", [1], 777⟩ =
        some r) ∧
    (∀ r, lxcDomainDestroy ⟨⟨0, 0⟩, goneCleanup⟩ exampleVethRunning ⟨"c2", [1], 777⟩ =
        some r →
      ∃ vm', r.2.driver.vms[0]? = some vm' ∧
        vm'.vmdef.nets = [⟨.LXC_NET_BRIDGE, some "br0", some "veth0", some "veth1"⟩] ∧
        lxcIsActiveVM vm' = false ∧
        vethDeletes r.2.trace = [.vethDelete (some "veth0")]) :=
  ⟨⟨_, rfl⟩, fun r hr =>
    match (lxcVMCleanup_keeps_veth_names ⟨⟨0, 0⟩, goneCleanup⟩ exampleVethRunning
      ⟨"c2", [1], 777⟩ 0
      { exampleVM "c2" 777 .VIR_DOMAIN_RUNNING with
        pid := 500
        vmdef := { exampleDef "c2" 777 with
                   nets := [⟨.LXC_NET_BRIDGE, some "br0", some "veth0", some "veth1"⟩] } }
      (by rfl)).2.2.1 r hr with
    | ⟨vm', h1, h2, h3⟩ => ⟨vm', h1, h2, (h3 (by decide)).1, (h3 (by decide)).2⟩⟩

/-- C15: lxcDomainShutdown on a handle whose id finds a record sends SIGINT to
the container root pid; if the kill succeeds or fails with ESRCH it returns 0
and sets the lifecycle state to shutdown-requested, leaving everything else
(runtime id, both counters, the other records) unchanged; if the kill fails
with any other error it returns -1 after an internal-error report and leaves
the driver unchanged; if no record has that id it returns -1 with an
invalid-domain report and sends no signal. -/
theorem lxcDomainShutdown_spec (kill : SysResult) (w : World) (dom : virDomain) :
    (∀ i vm, lxcFindVMByID w.driver dom.id = some (i, vm) →
      ((0 ≤ kill.rc ∨ kill.errno = ESRCH) →
        lxcDomainShutdown kill w dom =
          (0,
            { driver := { w.driver with
                vms := w.driver.vms.set i { vm with state := .VIR_DOMAIN_SHUTDOWN } },
              brctl := w.brctl,
              trace := .kill vm.vmdef.id SIGINT :: w.trace }) ∧
        (lxcDomainShutdown kill w dom).2.driver.vms[i]? =
          some { vm with state := .VIR_DOMAIN_SHUTDOWN } ∧
        (lxcDomainShutdown kill w dom).2.driver.nactivevms = w.driver.nactivevms ∧
        (lxcDomainShutdown kill w dom).2.driver.ninactivevms = w.driver.ninactivevms) ∧
      ((kill.rc < 0 ∧ kill.errno ≠ ESRCH) →
        lxcDomainShutdown kill w dom =
          (-1,
            { w with
              trace := .lxcError .VIR_ERR_INTERNAL_ERROR "sending SIGTERM failed: %s" ::
                .kill vm.vmdef.id SIGINT :: w.trace }))) ∧
    (lxcFindVMByID w.driver dom.id = none →
      lxcDomainShutdown kill w dom =
        (-1,
          { w with
            trace := .lxcError .VIR_ERR_INVALID_DOMAIN "no domain with id %d" :: w.trace }) ∧
      (lxcDomainShutdown kill w dom).2.trace.countP Event.isKill =
        w.trace.countP Event.isKill) := by
  constructor
  · intro i vm hfind
    have hi := (findVM_some _ _ _ _ hfind).1
    have hlt : i < w.driver.vms.length := by
      rcases Nat.lt_or_ge i w.driver.vms.length with h | h
      · exact h
      · rw [List.getElem?_eq_none h] at hi
        exact absurd hi (by simp)
    constructor
    · intro hk
      have hk' : ¬ (0 > kill.rc ∧ ESRCH ≠ kill.errno) := by
        rintro ⟨h1, h2⟩
        rcases hk with h | h
        · omega
        · exact h2 h.symm
      have hres : lxcDomainShutdown kill w dom =
          (0,
            { driver := { w.driver with
                vms := w.driver.vms.set i { vm with state := .VIR_DOMAIN_SHUTDOWN } },
              brctl := w.brctl,
              trace := .kill vm.vmdef.id SIGINT :: w.trace }) := by
        simp [lxcDomainShutdown, hfind, hk', World.emit]
      rw [hres]
      exact ⟨rfl, by simp [hlt], rfl, rfl⟩
    · intro hk
      have hk' : 0 > kill.rc ∧ ESRCH ≠ kill.errno := ⟨by omega, fun h => hk.2 h.symm⟩
      simp [lxcDomainShutdown, hfind, hk', World.emit, World.err]
  · intro hnone
    have hres : lxcDomainShutdown kill w dom =
        (-1,
          { w with
            trace := .lxcError .VIR_ERR_INVALID_DOMAIN "no domain with id %d" :: w.trace }) := by
      simp [lxcDomainShutdown, hnone, World.emit, World.err]
    rw [hres]
    exact ⟨rfl, by simp [List.countP_cons, Event.isKill]⟩

/-- The failure paths of `lxcStartup` that do release the driver: a failed
allocation leaves the global `NULL`, and a failed load of the driver
configuration or of the container definitions runs `lxcShutdown`. -/
theorem lxcStartup_load_failure_releases (env : StartupEnv)
    (lxc_driver : Option lxc_driver_t) (huid : env.uid = 0)
    (hprobe : lxcCheckContainerSupport env.support = 0)
    (hfail : (lxcStartup env lxc_driver).1 ≠ 0) :
    lxcStartup env lxc_driver = (-1, none) := by
  revert hfail
  unfold lxcStartup lxcShutdown
  simp only [huid, hprobe, ne_eq, not_true_eq_false, if_false]
  repeat' split
  all_goals simp

/-- C16 (code at the failing input): when root starts the driver on a kernel
whose probing clone fails with EINVAL, lxcStartup reports failure but the
allocated driver is still installed as the global driver state, so that a
subsequent lxcOpen by root with scheme "lxc" succeeds instead of being
declined. -/
theorem lxcStartup_probe_failure_keeps_driver :
    lxcCheckContainerSupport noSupportStartup.support = -1 ∧
    lxcStartup noSupportStartup none = (-1, some zeroDriver) ∧
    (lxcOpen 0 (lxcStartup noSupportStartup none).2 ⟨none⟩ (some ⟨some "lxc"⟩)).1 =
      .VIR_DRV_OPEN_SUCCESS ∧
    lxcActive (lxcStartup noSupportStartup none).2 = 0 := by
  refine ⟨by decide, by rfl, by rfl, by rfl⟩

/-- C17 (code at the failing input): for a definition with two interfaces whose
veth names are both null, the second vethCreate call is made with the names
allocated for the first interface (`veth0`, `veth1`) instead of empty strings.
With a vethCreate that keeps the non-empty names it is given, the setup succeeds
and both interfaces end up with the same host-side and container-side names;
with a vethCreate that rejects names already taken, the setup fails. -/
theorem lxcSetupInterfaces_second_interface_reuses_names :
    exampleTwoNetCtx.vm.vmdef.nets.map (fun net => (net.parentVeth, net.containerVeth)) =
      [(none, none), (none, none)] ∧
    (lxcSetupInterfaces freshIfs exampleTwoNetCtx).1 = 0 ∧
    (lxcSetupInterfaces freshIfs exampleTwoNetCtx).2.trace.filter Event.isVethCreate =
      [.vethCreate "veth0" "veth1", .vethCreate "" ""] ∧
    (lxcSetupInterfaces freshIfs exampleTwoNetCtx).2.vm.vmdef.nets.map
        (fun net => (net.parentVeth, net.containerVeth)) =
      [(some "veth0", some "veth1"), (some "veth0", some "veth1")] ∧
    (lxcSetupInterfaces rejectingIfs exampleTwoNetCtx).1 = 1 ∧
    (lxcSetupInterfaces rejectingIfs exampleTwoNetCtx).2.trace.filter Event.isVethCreate =
      [.vethCreate "veth0" "veth1", .vethCreate "" ""] := by
  refine ⟨by rfl, by rfl, by rfl, by rfl, by rfl, by rfl⟩

/-- C13 (code at the failing input): starting the inactive record `c1` from a
state whose counters match (0 active, 1 inactive), with clone returning pid 777
and the CONTINUE token not being sent, returns -1 and leaves the record with
runtime id 777, hence active and listed by lxcListDomains, while the active
counter is still 0 and the inactive counter still 1. -/
theorem lxcDomainStart_failure_after_clone_breaks_counters :
    countersMatch exampleCtx.driver = true ∧
    (lxcDomainStart { okStart with safewrite := 0 } exampleCtx.toWorld ⟨"c1", [1], -1⟩).map
        (fun r => (r.1, countersMatch r.2.driver, r.2.driver.nactivevms,
          r.2.driver.ninactivevms, activeIds r.2.driver.vms,
          (lxcListDomains r.2.driver (fun _ => 0) 10).2, lxcActive (some r.2.driver))) =
      some (-1, false, 0, 1, [777], 1, 0) := by
  refine ⟨by decide, by rfl⟩

theorem activeSides_update (s : FwdState) (n : Int) (cur i : Nat) (b : Bool) (hi : i < 2) :
    FwdState.activeSides
        { numActive := n, active := Function.update s.active i b, curFdOff := cur } =
      s.activeSides - (if s.active i then 1 else 0) + (if b then 1 else 0) := by
  have h01 : i = 0 ∨ i = 1 := by omega
  rcases h01 with rfl | rfl
  · simp only [FwdState.activeSides, Function.update_same, ne_eq, one_ne_zero,
      not_false_eq_true, Function.update_noteq]
    omega
  · simp only [FwdState.activeSides, Function.update_same, ne_eq, zero_ne_one,
      not_false_eq_true, Function.update_noteq]
    omega

theorem activeSides_bounds (s : FwdState) : 0 ≤ s.activeSides ∧ s.activeSides ≤ 2 := by
  unfold FwdState.activeSides
  constructor <;> split <;> split <;> omega

/-- The closing block of an iteration keeps the loop invariant, provided the
current side is active whenever a transfer is attempted. -/
theorem lxcTtyForward_pump_inv (f : FdForwardEnv) (timeout : Int) (s : FwdState)
    (hinv : s.Inv) (hact : 0 < s.numActive → s.active s.curFdOff = true) :
    (lxcTtyForward_pump f timeout s).timeout = timeout ∧
    (∀ sa, (lxcTtyForward_pump f timeout s).pumped = some sa →
      sa.Inv ∧ sa.active sa.curFdOff = true ∧ sa.curFdOff = s.curFdOff) ∧
    (∀ s', (lxcTtyForward_pump f timeout s).next = some s' → s'.Inv) := by
  obtain ⟨hn, hc⟩ := hinv
  unfold lxcTtyForward_pump
  by_cases hpos : 0 < s.numActive
  · have ha := hact hpos
    simp only [hpos, if_true]
    split
    · refine ⟨rfl, ?_, ?_⟩
      · intro sa hsa
        simp only [Option.some.injEq] at hsa
        subst hsa
        exact ⟨⟨hn, hc⟩, ha, rfl⟩
      · intro s' hs'
        simp only [Option.some.injEq] at hs'
        subst hs'
        refine ⟨?_, hc⟩
        show s.numActive - 1 = _
        rw [activeSides_update s _ _ _ false hc, ha, hn]
        simp
    · split
      · refine ⟨rfl, ?_, ?_⟩
        · intro sa hsa
          simp only [Option.some.injEq] at hsa
          subst hsa
          exact ⟨⟨hn, hc⟩, ha, rfl⟩
        · intro s' hs'
          simp at hs'
      · refine ⟨rfl, ?_, ?_⟩
        · intro sa hsa
          simp only [Option.some.injEq] at hsa
          subst hsa
          exact ⟨⟨hn, hc⟩, ha, rfl⟩
        · intro s' hs'
          simp only [Option.some.injEq] at hs'
          subst hs'
          exact ⟨hn, hc⟩
  · rw [if_neg hpos]
    refine ⟨rfl, ?_, ?_⟩
    · intro sa hsa
      simp at hsa
    · intro s' hs'
      simp only [Option.some.injEq] at hs'
      subst hs'
      exact ⟨hn, hc⟩

theorem xor_one_lt_two (n : Nat) (h : n < 2) : n ^^^ 1 < 2 := by
  have h01 : n = 0 ∨ n = 1 := by omega
  rcases h01 with rfl | rfl <;> decide

/-- When exactly one side is active and it is not side `n`, it is the other
side. -/
theorem active_other (s : FwdState) (n : Nat) (h : n < 2) (hn : s.active n = false)
    (hpos : 0 < s.activeSides) : s.active (n ^^^ 1) = true := by
  have h01 : n = 0 ∨ n = 1 := by omega
  unfold FwdState.activeSides at hpos
  rcases h01 with rfl | rfl
  · simp only [hn, Bool.false_eq_true, if_false] at hpos
    show s.active 1 = true
    by_contra hc
    simp [hc] at hpos
  · simp only [hn, Bool.false_eq_true, if_false] at hpos
    show s.active 0 = true
    by_contra hc
    simp [hc] at hpos

/-- When both sides are active, every side is. -/
theorem active_of_two (s : FwdState) (n : Nat) (h : n < 2) (h2 : s.activeSides = 2) :
    s.active n = true := by
  have h01 : n = 0 ∨ n = 1 := by omega
  unfold FwdState.activeSides at h2
  rcases h01 with rfl | rfl
  · by_contra hc
    simp only [hc, Bool.false_eq_true, if_false] at h2
    split at h2 <;> omega
  · by_contra hc
    simp only [hc, Bool.false_eq_true, if_false] at h2
    split at h2 <;> omega

/-- One iteration of the forwarder loop keeps the loop invariant, passes the
timeout computed from `numActive`, and attempts a transfer only from a side
whose active flag is set. -/
theorem lxcTtyForward_iter_inv (w : EpollWait) (f : FdForwardEnv) (s : FwdState)
    (hinv : s.Inv) (hu : w.u32 < 2) :
    (lxcTtyForward_iter w f s).timeout = s.waitTimeout ∧
    (∀ sa, (lxcTtyForward_iter w f s).pumped = some sa →
      sa.Inv ∧ sa.active sa.curFdOff = true) ∧
    (∀ s', (lxcTtyForward_iter w f s).next = some s' → s'.Inv) := by
  obtain ⟨hn, hc⟩ := hinv
  unfold lxcTtyForward_iter
  lift_lets
  intro timeout s1 s2 s3
  have hfrom : ∀ sx : FwdState, sx.Inv → (0 < sx.numActive → sx.active sx.curFdOff = true) →
      (lxcTtyForward_pump f timeout sx).timeout = timeout ∧
      (∀ sa, (lxcTtyForward_pump f timeout sx).pumped = some sa →
        sa.Inv ∧ sa.active sa.curFdOff = true) ∧
      (∀ s', (lxcTtyForward_pump f timeout sx).next = some s' → s'.Inv) := by
    intro sx hx hax
    obtain ⟨ht, hp, hnx⟩ := lxcTtyForward_pump_inv f timeout sx hx hax
    exact ⟨ht, fun sa hsa => ⟨(hp sa hsa).1, (hp sa hsa).2.1⟩, hnx⟩
  have hs2 : s2.Inv ∧ s2.active s2.curFdOff = true := by
    simp only [s2, s1]
    split
    · rename_i hna
      simp only [Bool.not_eq_true', ] at hna
      refine ⟨⟨?_, hu⟩, by simp⟩
      show s.numActive + 1 = _
      rw [activeSides_update s _ _ _ true hu, hna, hn]
      simp
    · rename_i hna
      simp only [Bool.not_eq_true', Bool.not_eq_false] at hna
      exact ⟨⟨hn, hu⟩, hna⟩
  have hs3 : s3.Inv ∧ (0 < s3.numActive → s3.active s3.curFdOff = true) := by
    simp only [s3]
    split
    · rename_i h2
      have h2' : s.activeSides = 2 := by rw [← hn]; exact h2.symm
      exact ⟨⟨hn, xor_one_lt_two _ hc⟩,
        fun _ => active_of_two s _ (xor_one_lt_two _ hc) h2'⟩
    · by_cases ha : s.active s.curFdOff = true
      · rw [if_pos ha]
        exact ⟨⟨hn, hc⟩, fun _ => ha⟩
      · rw [if_neg ha]
        refine ⟨⟨hn, xor_one_lt_two _ hc⟩, fun hpos => ?_⟩
        have hpos' : 0 < s.activeSides := by rw [← hn]; exact hpos
        exact active_other s _ hc (by simpa using ha) hpos'
  repeat' split
  · exact hfrom s2 hs2.1 (fun _ => hs2.2)
  · exact ⟨rfl, by simp, fun s' hs' => by
      simp only [Option.some.injEq] at hs'
      subst hs'
      exact ⟨hn, hc⟩⟩
  · exact ⟨rfl, by simp, by simp⟩
  · exact hfrom s3 hs3.1 hs3.2
  · exact ⟨rfl, by simp, fun s' hs' => by
      simp only [Option.some.injEq] at hs'
      subst hs'
      exact ⟨hn, hc⟩⟩
  · exact ⟨rfl, by simp, by simp⟩

/-- Every state with which an iteration of the forwarder loop starts satisfies
the loop invariant. -/
theorem lxcTtyForward_loop_inv (script : List (EpollWait × FdForwardEnv))
    (hreg : scriptRegistered script) (s0 s : FwdState) (h0 : s0.Inv)
    (h : lxcTtyForward_loop script s0 = some s) : s.Inv := by
  induction script generalizing s0 with
  | nil =>
    simp only [lxcTtyForward_loop, Option.some.injEq] at h
    subst h
    exact h0
  | cons x later ih =>
    obtain ⟨w, f⟩ := x
    unfold lxcTtyForward_loop at h
    split at h
    · simp at h
    · rename_i s1 hs1
      have hw : w.u32 < 2 := hreg (w, f) (List.mem_cons_self _ _)
      have h1 := (lxcTtyForward_iter_inv w f s0 h0 hw).2.2 s1 hs1
      exact ih (fun x hx => hreg x (List.mem_cons_of_mem _ hx)) s1 h1 h

theorem lxcTtyForward_inv (env : TtyForwardEnv) (script : List (EpollWait × FdForwardEnv))
    (hreg : scriptRegistered script) (s : FwdState)
    (h : lxcTtyForward env script = some s) : s.Inv := by
  unfold lxcTtyForward at h
  repeat' (split at h)
  all_goals first
    | simp at h
    | exact lxcTtyForward_loop_inv script hreg _ s
        ⟨by simp [FwdState.activeSides], by decide⟩ h

theorem lxcTtyForward_iter_timeout (w : EpollWait) (f : FdForwardEnv) (s : FwdState) :
    (lxcTtyForward_iter w f s).timeout = s.waitTimeout := by
  unfold lxcTtyForward_iter lxcTtyForward_pump
  lift_lets
  intro timeout s1 s2 s3
  repeat' split
  all_goals rfl

theorem waitTimeout_iff (s : FwdState) (hinv : s.Inv) :
    (s.waitTimeout = 0 ↔ (s.active 0 = true ∨ s.active 1 = true)) ∧
    (s.waitTimeout = -1 ↔ (s.active 0 = false ∧ s.active 1 = false)) := by
  obtain ⟨hn, _⟩ := hinv
  unfold FwdState.waitTimeout
  rw [hn]
  unfold FwdState.activeSides
  rcases h0 : s.active 0 <;> rcases h1 : s.active 1 <;> simp

/-- C18: in every iteration of the lxcTtyForward loop, whatever the earlier
wait and read results were, the timeout passed to the readiness wait is 0 if and
only if at least one of the two sides is marked active, and -1 (infinite) if and
only if both sides are marked inactive. -/
theorem lxcTtyForward_timeout_spec (env : TtyForwardEnv)
    (script : List (EpollWait × FdForwardEnv)) (hreg : scriptRegistered script) :
    ∀ s, lxcTtyForward env script = some s → ∀ w f,
      ((lxcTtyForward_iter w f s).timeout = 0 ↔ (s.active 0 = true ∨ s.active 1 = true)) ∧
      ((lxcTtyForward_iter w f s).timeout = -1 ↔
        (s.active 0 = false ∧ s.active 1 = false)) := by
  intro s h w f
  rw [lxcTtyForward_iter_timeout]
  exact waitTimeout_iff s (lxcTtyForward_inv env script hreg s h)

/-- Witness for C18: after a byte from side 1 and a read that would block,
both sides are inactive and the next wait gets the infinite timeout. -/
theorem lxcTtyForward_timeout_spec_witness :
    (∃ s, lxcTtyForward okForward exampleScript = some s) ∧
    ∀ s, lxcTtyForward okForward exampleScript = some s → ∀ w f,
      ((lxcTtyForward_iter w f s).timeout = 0 ↔ (s.active 0 = true ∨ s.active 1 = true)) ∧
      ((lxcTtyForward_iter w f s).timeout = -1 ↔
        (s.active 0 = false ∧ s.active 1 = false)) :=
  ⟨⟨_, rfl⟩, lxcTtyForward_timeout_spec okForward exampleScript
    (by unfold scriptRegistered exampleScript; decide)⟩

/-- C19: for every sequence of wait results and read results, at the top of
every iteration of the lxcTtyForward loop numActive equals the number of sides
whose active flag is set, so 0 <= numActive <= 2, and whenever the iteration
attempts a byte transfer the side being read (curFdOff) is one of the two sides
and its active flag is set. -/
theorem lxcTtyForward_invariant (env : TtyForwardEnv)
    (script : List (EpollWait × FdForwardEnv)) (hreg : scriptRegistered script) :
    ∀ s, lxcTtyForward env script = some s →
      s.numActive = s.activeSides ∧ 0 ≤ s.numActive ∧ s.numActive ≤ 2 ∧
      ∀ w f, w.u32 < 2 → ∀ sa, (lxcTtyForward_iter w f s).pumped = some sa →
        sa.curFdOff < 2 ∧ sa.active sa.curFdOff = true := by
  intro s h
  have hinv := lxcTtyForward_inv env script hreg s h
  obtain ⟨hlo, hhi⟩ := activeSides_bounds s
  refine ⟨hinv.1, by rw [hinv.1]; exact hlo, by rw [hinv.1]; exact hhi, ?_⟩
  intro w f hu sa hsa
  obtain ⟨hi, ha⟩ := (lxcTtyForward_iter_inv w f s hinv hu).2.1 sa hsa
  exact ⟨hi.2, ha⟩

/-- Witness for C19: the script of a byte from side 1 followed by a read that
would block. -/
theorem lxcTtyForward_invariant_witness :
    (∃ s, lxcTtyForward okForward exampleScript = some s) ∧
    ∀ s, lxcTtyForward okForward exampleScript = some s →
      s.numActive = s.activeSides ∧ 0 ≤ s.numActive ∧ s.numActive ≤ 2 ∧
      ∀ w f, w.u32 < 2 → ∀ sa, (lxcTtyForward_iter w f s).pumped = some sa →
        sa.curFdOff < 2 ∧ sa.active sa.curFdOff = true :=
  ⟨⟨_, rfl⟩, lxcTtyForward_invariant okForward exampleScript
    (by unfold scriptRegistered exampleScript; decide)⟩

/-- C20 (as stated, refuted): with both sides active and side 0 current, a new
readable event on side 0 makes the next transfer attempt read from side 0 again,
not from side 0 XOR 1. -/
theorem lxcTtyForward_event_on_current_side_not_toggled :
    bothActive.active 0 = true ∧ bothActive.active 1 = true ∧ bothActive.curFdOff = 0 ∧
    (lxcTtyForward_iter ⟨1, EPOLLIN, 0, 0⟩ ⟨1, 0, 1⟩ bothActive).pumped.map
        (fun sa => sa.curFdOff) = some 0 ∧
    (lxcTtyForward_iter ⟨1, EPOLLIN, 0, 0⟩ ⟨1, 0, 1⟩ bothActive).pumped.map
        (fun sa => sa.curFdOff) ≠ some (bothActive.curFdOff ^^^ 1) := by
  refine ⟨rfl, rfl, rfl, by rfl, by decide⟩

/-- C20 (amended): whenever both sides are marked active and side cur is
current (a byte has just been forwarded from it), the next iteration attempts a
transfer from side cur XOR 1 if the readiness wait times out with no event, and
from the side that reported the event if the wait reports a readable event; a
hangup event or an interrupted wait attempts no transfer and leaves the state as
it is, so that the same holds for the iteration after it. -/
theorem lxcTtyForward_fairness (s : FwdState) (hinv : s.Inv)
    (h0 : s.active 0 = true) (h1 : s.active 1 = true) (w : EpollWait) (f : FdForwardEnv) :
    (w.numEvents = 0 →
      (lxcTtyForward_iter w f s).pumped.map (fun sa => sa.curFdOff) =
        some (s.curFdOff ^^^ 1)) ∧
    (0 < w.numEvents → w.events &&& EPOLLIN ≠ 0 →
      (lxcTtyForward_iter w f s).pumped.map (fun sa => sa.curFdOff) = some w.u32) ∧
    (0 < w.numEvents → w.events &&& EPOLLIN = 0 → w.events &&& EPOLLHUP ≠ 0 →
      (lxcTtyForward_iter w f s).pumped.map (fun sa => sa.curFdOff) = none ∧
      (lxcTtyForward_iter w f s).next.map
        (fun s' => (s'.numActive, s'.active 0, s'.active 1, s'.curFdOff)) =
        some (s.numActive, s.active 0, s.active 1, s.curFdOff)) ∧
    (w.numEvents < 0 → w.errno = EINTR →
      (lxcTtyForward_iter w f s).pumped.map (fun sa => sa.curFdOff) = none ∧
      (lxcTtyForward_iter w f s).next.map
        (fun s' => (s'.numActive, s'.active 0, s'.active 1, s'.curFdOff)) =
        some (s.numActive, s.active 0, s.active 1, s.curFdOff)) := by
  have hn : s.numActive = 2 := by
    rw [hinv.1]
    simp [FwdState.activeSides, h0, h1]
  refine ⟨?_, ?_, ?_, ?_⟩
  · intro hw
    have hw1 : ¬ 0 < w.numEvents := by omega
    simp only [lxcTtyForward_iter, lxcTtyForward_pump, hw1, hw, hn, if_false, if_true]
    repeat' split
    all_goals first | rfl | omega
  · intro hw hin
    by_cases hact : s.active w.u32 = true
    · simp only [lxcTtyForward_iter, lxcTtyForward_pump, hw, hin, hn, hact, if_true]
      repeat' split
      all_goals first | rfl | simp_all
    · simp only [lxcTtyForward_iter, lxcTtyForward_pump, hw, hin, hn, hact, if_true]
      repeat' split
      all_goals first | rfl | simp_all
  · intro hw hin hhup
    simp [lxcTtyForward_iter, hw, hin, hhup]
  · intro hw herr
    have hw1 : ¬ 0 < w.numEvents := by omega
    have hw2 : ¬ 0 = w.numEvents := by omega
    simp [lxcTtyForward_iter, hw1, hw2, herr]

/-- Witness for C20: both sides active, side 0 current, and a wait that times
out: the next transfer attempt reads from side 1. -/
theorem lxcTtyForward_fairness_witness :
    (lxcTtyForward_iter ⟨0, 0, 0, 0⟩ ⟨1, 0, 1⟩ bothActive).pumped.map
        (fun sa => sa.curFdOff) = some (bothActive.curFdOff ^^^ 1) :=
  (lxcTtyForward_fairness bothActive ⟨by decide, by decide⟩ rfl rfl ⟨0, 0, 0, 0⟩
    ⟨1, 0, 1⟩).1 rfl

/-- `lxcVmStart` leaves the registry list alone and keeps the sum of the two
counters. -/
theorem lxcVmStart_counter_sum (env : StartEnv) (c : Ctx) (r : Int × Ctx)
    (h : lxcVmStart env c = some r) :
    r.2.driver.vms = c.driver.vms ∧
    r.2.driver.nactivevms + r.2.driver.ninactivevms =
      c.driver.nactivevms + c.driver.ninactivevms := by
  simp only [lxcVmStart, Option.map_eq_some'] at h
  obtain ⟨rb, hb, rfl⟩ := h
  suffices hs : rb.2.driver.vms = c.driver.vms ∧
      rb.2.driver.nactivevms + rb.2.driver.ninactivevms =
        c.driver.nactivevms + c.driver.ninactivevms from hs
  rcases lxcVmStart_body_cases env c rb hb with ⟨_, hf, _⟩ | ⟨c5, hf, _, rfl⟩
  · simp only [Ctx.launchFrame, Prod.mk.injEq] at hf
    rw [hf.1]
    exact ⟨rfl, rfl⟩
  · simp only [Ctx.launchFrame, Prod.mk.injEq] at hf
    obtain ⟨hdrv, _⟩ := hf
    rcases lxcVmStart_launch_cases env 0 c5 with
      ⟨_, _, _, hd, _⟩ | ⟨_, c6, _, hd6, _, hl⟩
    · rw [hd, hdrv]
      exact ⟨rfl, rfl⟩
    · rw [hl]
      rcases lxcVmStart_release_cases env c6
        with ⟨_, _, hd, _⟩ | ⟨_, _, _, hd, _⟩ | ⟨_, _, _, hd, _⟩ | ⟨_, _, _, hd, _⟩
      · rw [hd, hd6, hdrv]
        exact ⟨rfl, rfl⟩
      · rw [hd, hd6, hdrv]
        exact ⟨rfl, rfl⟩
      · rw [hd, hd6, hdrv]
        exact ⟨rfl, rfl⟩
      · rw [hd, hd6, hdrv]
        refine ⟨rfl, ?_⟩
        show c.driver.nactivevms + 1 + (c.driver.ninactivevms - 1) = _
        omega

/-- Every operation that returns keeps `counterSum`. -/
theorem DriverOp.apply_counterSum (op : DriverOp) (w w1 : World)
    (hsum : counterSum w.driver) (h : op.apply w = some w1) : counterSum w1.driver := by
  unfold counterSum at hsum ⊢
  cases op with
  | start env dom =>
    simp only [DriverOp.apply, lxcDomainStart] at h
    split at h
    · simp only [Option.map_some', Option.some.injEq] at h
      subst h
      exact hsum
    · simp only [Option.map_map, Option.map_eq_some'] at h
      obtain ⟨r, hr, rfl⟩ := h
      obtain ⟨hvms, hcnt⟩ := lxcVmStart_counter_sum _ _ _ hr
      simp only [Function.comp, Ctx.writeBack, List.length_set]
      rw [hvms, hcnt]
      exact hsum
  | shutdown kill dom =>
    simp only [DriverOp.apply, Option.some.injEq] at h
    subst h
    unfold lxcDomainShutdown
    repeat' split
    all_goals simp only [World.err, World.emit, List.length_set]
    all_goals exact hsum
  | destroy env dom =>
    simp only [DriverOp.apply, lxcDomainDestroy] at h
    repeat' (split at h)
    · simp only [Option.map_some', Option.some.injEq] at h
      subst h
      exact hsum
    · simp only [Option.map_some', Option.some.injEq] at h
      subst h
      exact hsum
    · simp only [Option.map_map, Option.map_eq_some'] at h
      obtain ⟨r, hr, rfl⟩ := h
      obtain ⟨_, _, _, _, hvms, hna, hni⟩ := lxcVMCleanup_post _ _ _ hr
      simp only [Function.comp, Ctx.writeBack, List.length_set]
      rw [hvms, hna, hni]
      simp only [World.emit]
      omega
  | signal env siginfo =>
    simp only [DriverOp.apply, lxcSigHandler] at h
    repeat' (split at h)
    · simp only [Option.map_some', Option.some.injEq] at h
      subst h
      exact hsum
    · simp only [Option.map_map, Option.map_eq_some'] at h
      obtain ⟨r, hr, rfl⟩ := h
      obtain ⟨_, _, _, _, hvms, hna, hni⟩ := lxcVMCleanup_post _ _ _ hr
      simp only [Function.comp, Ctx.writeBack, List.length_set]
      rw [hvms, hna, hni]
      show w.driver.nactivevms - 1 + (w.driver.ninactivevms + 1) = (w.driver.vms.length : Int)
      omega
    · simp only [Option.map_some', Option.some.injEq] at h
      subst h
      exact hsum

/-- The part of C13 that the code keeps: after every finite sequence of start,
shutdown-graceful, destroy and signal-handler operations that return, with
arbitrary outcomes of their calls, the two counters still add up to the registry
size. -/
theorem runOps_counterSum (ops : List DriverOp) (w w1 : World)
    (hsum : counterSum w.driver) (h : runOps ops w = some w1) : counterSum w1.driver := by
  induction ops generalizing w with
  | nil =>
    simp only [runOps, Option.some.injEq] at h
    subst h
    exact hsum
  | cons op later ih =>
    unfold runOps at h
    split at h
    · simp at h
    · rename_i w2 hw2
      exact ih w2 (DriverOp.apply_counterSum op w w2 hsum hw2) h

end LxcDriver
